import Mathlib

/-!
Verification of the YieldOps MES core against its specification.

This file shallowly embeds the core engines of the repository in Lean:

* `apps/api/app/core/sentinel_engine.py` — anomaly detector and safety circuit;
* `apps/api/app/api/v1/aegis.py` — incident endpoints;
* `apps/api/app/core/toc_engine.py` — Theory-of-Constraints dispatcher;
* `apps/api/app/core/scheduler_optimizer.py` — constraint scheduler (Python fallback);
* `apps/api/app/api/v1/dispatch.py` — dispatch persistence loop;
* `apps/api/app/core/job_lifecycle_processor.py` — lifecycle completion;
* `apps/api/app/api/v1/jobs.py` and `services/supabase_service.py` — job cancel;
* `apps/api/app/core/dynamic_job_generator.py` — autogenerated lot names.

Modelling conventions: Python floats are embedded as `ℚ` (no claim concerns
floating-point rounding); Python strings stay `String`; dict rows become
structures; the database becomes explicit state threaded through functions;
fallible endpoints return `Except ℕ _` carrying the HTTP status code.
`math.sqrt` is kept abstract as a function parameter `sqrtQ : ℚ → ℚ`; every
theorem about the detector is proved for an arbitrary such function, so no
property below depends on the value of a square root.
-/

namespace YieldOps

/-! ### Sentinel engine: thresholds and detectors (sentinel_engine.py) -/

/-- `Thresholds` dataclass of `sentinel_engine.py` (defaults as in the source). -/
structure Thresholds where
  temp_warning : ℚ := 80
  temp_critical : ℚ := 95
  temp_emergency : ℚ := 105
  vibration_warning : ℚ := 2/100
  vibration_critical : ℚ := 5/100
  vibration_emergency : ℚ := 8/100
  roc_temp_threshold : ℚ := 5

/-- The module-level `THRESHOLDS` singleton. -/
def THRESHOLDS : Thresholds := {}

/-- A detection dict as built by `_detect_temperature` / `_detect_vibration`,
with the `z_score` / `rate_of_change` fields attached by `analyze`.
The human-readable `message` string and the 2-decimal display rounding of
`z_score` and `rate_of_change` are not modelled; no claim depends on them. -/
structure Detection where
  severity : String
  dtype : String
  threshold : ℚ
  action : String
  zone : String
  z_score : ℚ := 0
  rate_of_change : ℚ := 0
  deriving Repr, DecidableEq

/-- `SentinelDetector._detect_temperature`. -/
def detectTemperature (t : Thresholds) (temp z roc : ℚ) : Option Detection :=
  if temp > t.temp_emergency ∨ z > 4 then
    some { severity := "critical", dtype := "thermal_runaway",
           threshold := t.temp_emergency, action := "emergency_stop", zone := "red" }
  else if temp > t.temp_critical ∨ (z > 3 ∧ roc > t.roc_temp_threshold) then
    some { severity := "high", dtype := "thermal_runaway",
           threshold := t.temp_critical, action := "reduce_thermal_load", zone := "yellow" }
  else if temp > t.temp_warning ∨ z > 5/2 then
    some { severity := "medium", dtype := "elevated_temperature",
           threshold := t.temp_warning, action := "increase_coolant", zone := "green" }
  else none

/-- `SentinelDetector._detect_vibration`. -/
def detectVibration (t : Thresholds) (vib z _roc : ℚ) : Option Detection :=
  if vib > t.vibration_emergency then
    some { severity := "critical", dtype := "bearing_failure",
           threshold := t.vibration_emergency, action := "emergency_stop", zone := "red" }
  else if vib > t.vibration_critical ∨ z > 7/2 then
    some { severity := "high", dtype := "bearing_wear",
           threshold := t.vibration_critical, action := "alert_maintenance", zone := "red" }
  else if vib > t.vibration_warning ∨ z > 5/2 then
    some { severity := "medium", dtype := "increased_vibration",
           threshold := t.vibration_warning, action := "schedule_inspection", zone := "green" }
  else none

/-! ### Safety circuit (sentinel_engine.py, class SafetyCircuit) -/

namespace SafetyCircuit

/-- `SafetyCircuit.evaluate`: severity → zone. The `incident_type` argument is
taken but unused, as in the source. -/
def evaluate (severity _incident_type : String) : String :=
  if severity = "critical" then "red"
  else if severity = "high" then "yellow"
  else "green"

/-- `SafetyCircuit.determine_action_status`: zone → action status. -/
def determine_action_status (zone : String) : String :=
  if zone = "green" then "auto_executed"
  else if zone = "yellow" then "pending_approval"
  else "alert_only"

end SafetyCircuit

/-! ### Streaming detector state (`SentinelDetector.analyze`) -/

/-- Per-`machine_id:metric` stream state: the bounded ring (`deque(maxlen=window_size)`)
plus `last_values[key]` and `last_time[key]`. -/
structure StreamState where
  history : List ℚ
  last_value : ℚ
  last_time : ℚ
  deriving Repr, DecidableEq

/-- The `SentinelDetector` instance state: `history`/`last_values`/`last_time`
dicts, modelled as one association list keyed by `machine_id ++ ":" ++ metric`. -/
structure SentinelDetector where
  window_size : ℕ := 60
  streams : List (String × StreamState) := []
  deriving Repr, DecidableEq

/-- `collections.deque(maxlen).append`: appends on the right, dropping the
leftmost element when the deque is at capacity. -/
def dequeAppend (maxlen : ℕ) (h : List ℚ) (v : ℚ) : List ℚ :=
  if maxlen ≤ h.length then h.drop 1 ++ [v] else h ++ [v]

/-- Replace the entry for `key` in the association list (the dict write
`self.history[key] = ...`). -/
def setStream (key : String) (st : StreamState) : List (String × StreamState) →
    List (String × StreamState)
  | [] => [(key, st)]
  | (k, s) :: rest => if k == key then (k, st) :: rest else (k, s) :: setStream key st rest

/-- `SentinelDetector.analyze`, one sample for one `(machine_id, metric)` at
time `now` (the source reads `time.time()`; here the clock is a parameter).
`sqrtQ` stands for `math.sqrt`; it is only applied when `variance > 0`. -/
def analyze (sqrtQ : ℚ → ℚ) (d : SentinelDetector) (machine_id metric : String)
    (value now : ℚ) : SentinelDetector × Option Detection :=
  let key := machine_id ++ ":" ++ metric
  match d.streams.lookup key with
  | none =>
      ({ d with streams := (key, ⟨[], value, now⟩) :: d.streams }, none)
  | some st =>
      let history := dequeAppend d.window_size st.history value
      if history.length < 10 then
        ({ d with streams := setStream key ⟨history, value, now⟩ d.streams }, none)
      else
        let mean := history.sum / (history.length : ℚ)
        let variance := (history.map fun x => (x - mean) ^ 2).sum / (history.length : ℚ)
        let std_dev := if variance > 0 then sqrtQ variance else 1/1000
        let z := if std_dev > 0 then (value - mean) / std_dev else 0
        let time_delta := now - st.last_time
        let value_delta := value - st.last_value
        let roc := if time_delta > 0 then value_delta / time_delta * 60 else 0
        let det := if metric = "temperature" then detectTemperature THRESHOLDS value z roc
                   else if metric = "vibration" then detectVibration THRESHOLDS value z roc
                   else none
        ({ d with streams := setStream key ⟨history, value, now⟩ d.streams },
         det.map fun dd => { dd with z_score := z, rate_of_change := roc })

/-- Feed a list of `(value, time)` samples for one `(machine_id, metric)`
through `analyze`, collecting the per-sample results. -/
def analyzeRun (sqrtQ : ℚ → ℚ) (machine_id metric : String) :
    SentinelDetector → List (ℚ × ℚ) → SentinelDetector × List (Option Detection)
  | d, [] => (d, [])
  | d, (v, t) :: rest =>
      let step := analyze sqrtQ d machine_id metric v t
      let tail := analyzeRun sqrtQ machine_id metric step.1 rest
      (tail.1, step.2 :: tail.2)

/-! ### Aegis incident endpoints (api/v1/aegis.py) -/

/-- Request body of `POST /aegis/incidents` (`IncidentCreate`). -/
structure IncidentCreate where
  machine_id : String
  severity : String
  incident_type : String
  message : String
  detected_value : ℚ
  threshold_value : ℚ
  recommended_action : String
  action_zone : String
  z_score : Option ℚ := none
  rate_of_change : Option ℚ := none
  deriving Repr, DecidableEq

/-- A stored incident row (the dict built in `report_incident` /
`aegis_incidents` table). Timestamps are rationals (epoch seconds). -/
structure IncidentRecord where
  incident_id : String
  machine_id : String
  severity : String
  incident_type : String
  message : String
  detected_value : ℚ
  threshold_value : ℚ
  action_taken : String
  action_status : String
  action_zone : String
  z_score : Option ℚ
  rate_of_change : Option ℚ
  resolved : Bool
  resolved_at : Option ℚ
  operator_notes : Option String
  deriving Repr, DecidableEq

/-- `report_incident` (`POST /aegis/incidents`): builds and stores the record.
The generated uuid-based id and timestamp are parameters. -/
def report_incident (incident_id : String) (inc : IncidentCreate) : IncidentRecord :=
  let action_status := SafetyCircuit.determine_action_status inc.action_zone
  { incident_id := incident_id
    machine_id := inc.machine_id
    severity := inc.severity
    incident_type := inc.incident_type
    message := inc.message
    detected_value := inc.detected_value
    threshold_value := inc.threshold_value
    action_taken := inc.recommended_action
    action_status := action_status
    action_zone := inc.action_zone
    z_score := inc.z_score
    rate_of_change := inc.rate_of_change
    resolved := false
    resolved_at := none
    operator_notes := none }

/-- `approve_incident` (`POST /aegis/incidents/{id}/approve`): `inc?` is the
lookup result; returns the updated record and the reported `action_status`,
or the HTTP error status. The persistence call `update_incident` is modelled
as always succeeding (its failure path only yields a 500). -/
def approve_incident (inc? : Option IncidentRecord) (approved : Bool)
    (operator_notes : Option String) : Except ℕ (IncidentRecord × String) :=
  match inc? with
  | none => .error 404
  | some inc =>
      if inc.action_status ≠ "pending_approval" then .error 400
      else
        let new_status := if approved then "approved" else "rejected"
        let inc' : IncidentRecord :=
          { inc with
            action_status := new_status
            operator_notes := match operator_notes with
              | some n => some n
              | none => inc.operator_notes }
        .ok (inc', new_status)

/-- `resolve_incident` (`POST /aegis/incidents/{id}/resolve`): marks the
incident resolved at time `now`. -/
def resolve_incident (inc? : Option IncidentRecord) (now : ℚ)
    (operator_notes : Option String) : Except ℕ IncidentRecord :=
  match inc? with
  | none => .error 404
  | some inc =>
      .ok { inc with
            resolved := true
            resolved_at := some now
            operator_notes := match operator_notes with
              | some n => some n
              | none => inc.operator_notes }

/-! ### Theory-of-Constraints engine (toc_engine.py) -/

/-- `Machine` dataclass of `toc_engine.py`. The `type` field is named `mtype`. -/
structure Machine where
  machine_id : String
  name : String
  status : String
  efficiency_rating : ℚ
  mtype : String
  current_wafer_count : ℕ := 0
  deriving Repr, DecidableEq

/-- `Job` dataclass of `toc_engine.py`; `created_at` is an epoch timestamp. -/
structure Job where
  job_id : String
  job_name : String
  priority_level : ℕ
  wafer_count : ℕ
  is_hot_lot : Bool
  recipe_type : String
  created_at : ℚ
  status : String := "PENDING"
  deriving Repr, DecidableEq

/-- `DispatchDecision` dataclass (the human-readable `reason` string is not
modelled; no claim depends on it). -/
structure DispatchDecision where
  job_id : String
  machine_id : String
  timestamp : ℚ
  deriving Repr, DecidableEq

/-- The `status_multipliers` dict with its `.get(status, 0.0)` default. -/
def statusMultiplier (status : String) : ℚ :=
  if status = "IDLE" then 1
  else if status = "RUNNING" then 7/10
  else if status = "MAINTENANCE" then 0
  else if status = "DOWN" then 0
  else 0

/-- `TheoryOfConstraintsEngine.calculate_machine_score`. `queue_depths` dicts
are modelled as total functions (`.get(id, 0)`). -/
def calculate_machine_score (machine : Machine) (_job : Job) (queue_depth : ℕ) : ℚ :=
  machine.efficiency_rating * statusMultiplier machine.status
    * (1 / (1 + (queue_depth : ℚ) * (1/10)))

/-- The machine loop inside `select_best_machine`: skips DOWN/MAINTENANCE
machines and keeps the best strictly-improving score (initially `-1.0`). -/
def selectLoop (job : Job) (queue_depths : String → ℕ) :
    List Machine → Option Machine → ℚ → Option Machine
  | [], best, _ => best
  | m :: rest, best, best_score =>
      if m.status = "DOWN" ∨ m.status = "MAINTENANCE" then
        selectLoop job queue_depths rest best best_score
      else
        let score := calculate_machine_score m job (queue_depths m.machine_id)
        if score > best_score then selectLoop job queue_depths rest (some m) score
        else selectLoop job queue_depths rest best best_score

/-- `TheoryOfConstraintsEngine.select_best_machine`. -/
def select_best_machine (job : Job) (machines : List Machine)
    (queue_depths : String → ℕ) : Option Machine :=
  selectLoop job queue_depths machines none (-1)

/-- The sort key of `prioritize_jobs`:
`(not j.is_hot_lot, j.priority_level, j.created_at)`. -/
def jobKey (j : Job) : Bool × ℕ × ℚ := (!j.is_hot_lot, j.priority_level, j.created_at)

/-- Lexicographic `≤` on the sort key, as Python tuple comparison orders it. -/
def keyLE (a b : Bool × ℕ × ℚ) : Bool :=
  (a.1 < b.1 : Bool) || (a.1 == b.1 &&
    (decide (a.2.1 < b.2.1) || (a.2.1 == b.2.1 && decide (a.2.2 ≤ b.2.2))))

/-- The comparison `prioritize_jobs` sorts by. -/
def jobLE (a b : Job) : Bool := keyLE (jobKey a) (jobKey b)

/-- `TheoryOfConstraintsEngine.prioritize_jobs`: Python `sorted` is a stable
merge sort on the key, embedded as `List.mergeSort`. -/
def prioritize_jobs (jobs : List Job) : List Job := jobs.mergeSort jobLE

/-- The mutable state of the `dispatch_batch` loop: `decisions` and the
`assigned_machines` set (modelled as a list of machine ids). -/
structure DispatchState where
  decisions : List DispatchDecision
  assigned_machines : List String
  deriving Repr, DecidableEq

/-- The job loop of `dispatch_batch`: stop when `max_dispatches` decisions
exist; otherwise pick the best machine among those not yet assigned in this
batch, append the decision and mark the machine consumed. -/
def dispatchLoop (max_dispatches : ℕ) (available_machines : List Machine)
    (queue_depths : String → ℕ) (now : ℚ) :
    List Job → DispatchState → DispatchState
  | [], s => s
  | job :: rest, s =>
      if max_dispatches ≤ s.decisions.length then s
      else
        let free_machines := available_machines.filter
          fun m => !s.assigned_machines.contains m.machine_id
        match select_best_machine job free_machines queue_depths with
        | some best =>
            dispatchLoop max_dispatches available_machines queue_depths now rest
              { decisions := s.decisions ++ [⟨job.job_id, best.machine_id, now⟩]
                assigned_machines := best.machine_id :: s.assigned_machines }
        | none => dispatchLoop max_dispatches available_machines queue_depths now rest s

/-- `TheoryOfConstraintsEngine.dispatch_batch` (default `max_dispatches=5`);
`now` stands for `datetime.utcnow()`. -/
def dispatch_batch (pending_jobs : List Job) (available_machines : List Machine)
    (queue_depths : String → ℕ) (max_dispatches : ℕ := 5) (now : ℚ := 0) : DispatchState :=
  dispatchLoop max_dispatches available_machines queue_depths now
    (prioritize_jobs pending_jobs) ⟨[], []⟩

/-- A machine the `select_best_machine` loop does not skip. -/
def machineAvailable (m : Machine) : Prop := m.status ≠ "DOWN" ∧ m.status ≠ "MAINTENANCE"

instance (m : Machine) : Decidable (machineAvailable m) := by
  unfold machineAvailable; infer_instance

/-! ### Scheduler optimizer, Python fallback (scheduler_optimizer.py) -/

/-- `SchedulerJob` dataclass. -/
structure SchedulerJob where
  job_id : String
  job_name : String
  priority_level : ℕ
  wafer_count : ℕ
  is_hot_lot : Bool
  recipe_type : String
  deadline_hours : Option ℚ := none
  deriving Repr, DecidableEq

/-- `SchedulerMachine` dataclass. -/
structure SchedulerMachine where
  machine_id : String
  name : String
  machine_type : String
  status : String
  efficiency_rating : ℚ
  current_queue_depth : ℕ := 0
  estimated_available_hours : ℚ := 0
  deriving Repr, DecidableEq

/-- `Assignment` dataclass (`reason` and the always-empty
`constraint_violations` are not modelled). -/
structure Assignment where
  job_id : String
  job_name : String
  machine_id : String
  machine_name : String
  score : ℚ
  estimated_start_hours : ℚ
  deriving Repr, DecidableEq

/-- `OptimizationResult` (`total_score` and `optimization_time_ms` omitted;
no claim depends on them). -/
structure OptimizationResult where
  assignments : List Assignment
  unassigned_jobs : List String
  deriving Repr, DecidableEq

/-- `ConstraintConfig` dataclass with its defaults. -/
structure ConstraintConfig where
  enforce_recipe_match : Bool := true
  enforce_deadlines : Bool := false
  priority_weight : ℚ := 3/10
  efficiency_weight : ℚ := 3/10
  deadline_weight : ℚ := 2/10
  queue_depth_weight : ℚ := 2/10
  deriving Repr, DecidableEq

/-- Python's `str.lower`, character-wise on the string's character list
(all strings involved are ASCII). -/
def lowerStr (s : String) : List Char := s.data.map Char.toLower

/-- The `recipe_to_type` dict of `_optimize_python`, keyed by the lowered
recipe name. -/
def recipeToType : List (List Char × List String) :=
  [("lithography".data, ["lithography"]), ("euv".data, ["lithography"]),
   ("duv".data, ["lithography"]),
   ("etching".data, ["etching"]), ("etch".data, ["etching"]),
   ("deposition".data, ["deposition"]), ("cvd".data, ["deposition"]),
   ("pvd".data, ["deposition"]),
   ("inspection".data, ["inspection"]), ("cleaning".data, ["cleaning"])]

/-- `recipe_to_type.get(job.recipe_type.lower(), <all five kinds>)`. -/
def compatibleTypes (recipe_type : String) : List String :=
  (recipeToType.lookup (lowerStr recipe_type)).getD
    ["lithography", "etching", "deposition", "inspection", "cleaning"]

/-- Python's substring test `t in s` on character lists: an empty needle is
always contained; otherwise try every suffix start position. -/
def hasSub : List Char → List Char → Bool
  | [], t => t.isEmpty
  | c :: rest, t => t.isPrefixOf (c :: rest) || hasSub rest t

/-- The `type_match` check of `_optimize_python`:
`any(t in machine.machine_type.lower() for t in compatible_types)`. -/
def typeMatch (compatible : List String) (machine_type : String) : Bool :=
  compatible.any fun t => hasSub (lowerStr machine_type) t.data

/-- The machine loop of `_optimize_python` for one job: skip consumed
machines, non-IDLE/RUNNING machines, and (when `enforce_recipe_match`)
recipe-incompatible machines; keep the best strictly-improving score
(efficiency, +0.1 when IDLE; initially `-1.0`). -/
def optSelectLoop (cfg : ConstraintConfig) (job : SchedulerJob) (assigned : List String) :
    List SchedulerMachine → Option SchedulerMachine → ℚ → Option SchedulerMachine × ℚ
  | [], best, best_score => (best, best_score)
  | m :: rest, best, best_score =>
      if assigned.contains m.machine_id then
        optSelectLoop cfg job assigned rest best best_score
      else if ¬(m.status = "IDLE" ∨ m.status = "RUNNING") then
        optSelectLoop cfg job assigned rest best best_score
      else if cfg.enforce_recipe_match
          ∧ ¬(typeMatch (compatibleTypes job.recipe_type) m.machine_type = true) then
        optSelectLoop cfg job assigned rest best best_score
      else
        let score := m.efficiency_rating + (if m.status = "IDLE" then 1/10 else 0)
        if score > best_score then optSelectLoop cfg job assigned rest (some m) score
        else optSelectLoop cfg job assigned rest best best_score

/-- The job loop of `_optimize_python`: state is `(assignments, unassigned,
assigned_machines)`. -/
def optimizeJobsLoop (cfg : ConstraintConfig) (machines : List SchedulerMachine) :
    List SchedulerJob → List Assignment → List String → List String →
    List Assignment × List String
  | [], asgns, unassigned, _assigned => (asgns, unassigned)
  | job :: rest, asgns, unassigned, assigned =>
      match optSelectLoop cfg job assigned machines none (-1) with
      | (some best, best_score) =>
          optimizeJobsLoop cfg machines rest
            (asgns ++ [{ job_id := job.job_id, job_name := job.job_name,
                         machine_id := best.machine_id, machine_name := best.name,
                         score := best_score,
                         estimated_start_hours := best.estimated_available_hours }])
            unassigned (best.machine_id :: assigned)
      | (none, _) =>
          optimizeJobsLoop cfg machines rest asgns (unassigned ++ [job.job_id]) assigned

/-- The sort key of `_optimize_python`: `(not j.is_hot_lot, j.priority_level)`
(no `created_at`; `SchedulerJob` does not carry one). -/
def schedKeyLE (a b : SchedulerJob) : Bool :=
  decide ((!a.is_hot_lot) < (!b.is_hot_lot)) || ((!a.is_hot_lot) == (!b.is_hot_lot) &&
    decide (a.priority_level ≤ b.priority_level))

/-- `SchedulerOptimizer._optimize_python`: stable sort by `(not hot,
priority)`, then greedy assignment over the first `max_assignments` jobs. -/
def optimizePython (cfg : ConstraintConfig) (jobs : List SchedulerJob)
    (machines : List SchedulerMachine) (max_assignments : ℕ) : OptimizationResult :=
  let sorted_jobs := jobs.mergeSort schedKeyLE
  let r := optimizeJobsLoop cfg machines (sorted_jobs.take max_assignments) [] [] []
  { assignments := r.1, unassigned_jobs := r.2 }

/-- Legality of one optimizer assignment with respect to the inputs: it pairs
some input job with some input machine that is IDLE/RUNNING and — when recipe
matching is enforced — recipe-compatible with that job. -/
def assignmentSound (cfg : ConstraintConfig) (jobs : List SchedulerJob)
    (machines : List SchedulerMachine) (a : Assignment) : Prop :=
  ∃ j ∈ jobs, ∃ m ∈ machines,
    a.job_id = j.job_id ∧ a.machine_id = m.machine_id
    ∧ (m.status = "IDLE" ∨ m.status = "RUNNING")
    ∧ (cfg.enforce_recipe_match = true →
        typeMatch (compatibleTypes j.recipe_type) m.machine_type = true)

/-! ### Dispatch persistence (api/v1/dispatch.py, services/supabase_service.py) -/

/-- A `production_jobs` row, restricted to the columns the dispatch and
cancel paths touch. -/
structure JobRow where
  job_id : String
  status : String
  assigned_machine_id : Option String
  deriving Repr, DecidableEq

/-- A `dispatch_decisions` row. -/
structure DispatchRow where
  job_id : String
  machine_id : String
  deriving Repr, DecidableEq

/-- The persistent stores `run_dispatch` writes to. -/
structure DispatchDB where
  jobs : List JobRow
  dispatch_log : List DispatchRow
  deriving Repr, DecidableEq

/-- `SupabaseService.assign_job`: set `assigned_machine_id` and
`status = "QUEUED"` on the matching row. -/
def assign_job (db : DispatchDB) (job_id machine_id : String) : DispatchDB :=
  { db with jobs := db.jobs.map fun j =>
      if j.job_id = job_id then
        { j with status := "QUEUED", assigned_machine_id := some machine_id }
      else j }

/-- `SupabaseService.log_dispatch_decision`: append a dispatch row. -/
def log_dispatch_decision (db : DispatchDB) (job_id machine_id : String) : DispatchDB :=
  { db with dispatch_log := db.dispatch_log ++ [⟨job_id, machine_id⟩] }

/-- The persistence loop of `run_dispatch`: for each decision, persist the
assignment then the dispatch record. A raised persistence error (oracles
`failAssign` / `failLog`, keyed by job id) propagates to the endpoint's
`except` handler, which returns HTTP 500; writes already performed stay. -/
def applyDecisions (failAssign failLog : String → Bool) :
    List DispatchDecision → DispatchDB → DispatchDB × Option ℕ
  | [], db => (db, none)
  | d :: rest, db =>
      if failAssign d.job_id then (db, some 500)
      else
        let db1 := assign_job db d.job_id d.machine_id
        if failLog d.job_id then (db1, some 500)
        else applyDecisions failAssign failLog rest (log_dispatch_decision db1 d.job_id d.machine_id)

/-- Failure-free persistence of a decision list: for each decision in order,
the assignment update then the dispatch-record insert. -/
def persistAll : List DispatchDecision → DispatchDB → DispatchDB
  | [], db => db
  | d :: rest, db =>
      persistAll rest (log_dispatch_decision (assign_job db d.job_id d.machine_id)
        d.job_id d.machine_id)

/-! ### Job lifecycle completion (job_lifecycle_processor.py) -/

/-- A `production_jobs` row as read by the lifecycle processor. Timestamps
are epoch seconds; `estimated_duration_minutes` is in minutes. -/
structure LifecycleJob where
  job_id : String
  status : String
  assigned_machine_id : Option String
  started_at : Option ℚ
  estimated_duration_minutes : ℚ
  wafer_count : ℕ
  completed_at : Option ℚ
  updated_at : ℚ
  deriving Repr, DecidableEq

/-- A `machines` row as written by the lifecycle processor. -/
structure LifecycleMachine where
  machine_id : String
  status : String
  current_job_id : Option String
  total_wafers_processed : ℕ
  updated_at : ℚ
  deriving Repr, DecidableEq

/-- `RunningJob.progress_percentage`: elapsed minutes over the estimate,
capped at 100. (`started_at` and `now` are epoch seconds.) -/
def progress_percentage (started_at est now : ℚ) : ℚ :=
  min 100 ((now - started_at) / 60 / est * 100)

/-- `JobLifecycleProcessor._complete_job`: the two row updates it issues.
It touches no other column of either row. -/
def complete_job (job : LifecycleJob) (machine : LifecycleMachine) (now : ℚ) :
    LifecycleJob × LifecycleMachine :=
  ({ job with status := "COMPLETED", completed_at := some now, updated_at := now },
   { machine with status := "IDLE", current_job_id := none, updated_at := now })

/-- The completion gate of `_process_running_to_completed` for a tracked
running job: complete when `progress_percentage ≥ 100`. -/
def shouldComplete (started_at est now : ℚ) : Prop :=
  progress_percentage started_at est now ≥ 100

instance (s e n : ℚ) : Decidable (shouldComplete s e n) := by
  unfold shouldComplete; infer_instance

/-! ### Job cancellation (api/v1/jobs.py, services/supabase_service.py) -/

/-- The lot invariant of the claim: `assigned_equipment_id` is set iff the
status is QUEUED or RUNNING. -/
def lotAssignmentInvariant (j : JobRow) : Prop :=
  j.assigned_machine_id ≠ none ↔ (j.status = "QUEUED" ∨ j.status = "RUNNING")

instance (j : JobRow) : Decidable (lotAssignmentInvariant j) := by
  unfold lotAssignmentInvariant; infer_instance

/-- `SupabaseService.update_job_status`: updates only the `status` column. -/
def update_job_status (job : JobRow) (status : String) : JobRow :=
  { job with status := status }

/-- `cancel_job` (`POST /jobs/{id}/cancel`): 404 when the job is unknown,
400 unless the status is PENDING or QUEUED, else set status to CANCELLED. -/
def cancel_job (job? : Option JobRow) : Except ℕ JobRow :=
  match job? with
  | none => .error 404
  | some job =>
      if job.status = "PENDING" ∨ job.status = "QUEUED" then
        .ok (update_job_status job "CANCELLED")
      else .error 400

/-! ### Autogenerated lot names (dynamic_job_generator.py) -/

/-- Python's `name.split("-")` on the character list: splitting on the
separator, keeping empty pieces, `[""]` for the empty string. -/
def splitDash : List Char → List (List Char)
  | [] => [[]]
  | c :: rest =>
      match splitDash rest with
      | [] => [[c]]
      | p :: ps => if c = '-' then [] :: p :: ps else (c :: p) :: ps

/-- Python's `int(s)` restricted to unsigned decimal digit strings (the only
shape the autogenerated sequence fields take); anything else raises, i.e.
yields `none`. -/
def digitsVal? (cs : List Char) : Option ℕ :=
  if cs.isEmpty then none
  else cs.foldl (fun acc? c => acc?.bind fun acc =>
    if c.isDigit then some (acc * 10 + (c.toNat - '0'.toNat)) else none) (some 0)

/-- The per-name parse inside `_generate_job_name`: split on `-`, require at
least 3 parts, read the last part as an integer. -/
def parseSeq (name : String) : Option ℕ :=
  let parts := splitDash name.data
  if parts.length ≥ 3 then parts.getLast?.bind digitsVal? else none

/-- The `sequences` list collected from today's matching names. -/
def usedSequences (names : List String) : List ℕ := names.filterMap parseSeq

/-- Python's `max(l, default=d)`: the default applies only to an empty list;
otherwise it is the maximum of the elements. -/
def maxDefault (l : List ℕ) (d : ℕ) : ℕ :=
  match l with
  | [] => d
  | a :: rest => rest.foldl max a

/-- `max(sequences, default=1000) + 1`. -/
def nextSeq (names : List String) : ℕ := maxDefault (usedSequences names) 1000 + 1

/-- Python's `f"{n:04d}"`: decimal, left-padded with zeros to width 4. -/
def pad4 (n : ℕ) : String :=
  let s := toString n
  String.mk (List.replicate (4 - s.data.length) '0' ++ s.data)

/-- `DynamicJobGenerator._generate_job_name`. `query` models the database
query for today's `job_name`s matching `LIKE '<prefix>-<year>-%'` for the
chosen prefix: `some names` is a successful query result; `none` is a raised
exception, on which the source's `except` branch falls back to
`next_seq = random.randint(1001, 9999)`, whose draw is modelled by `rand`. -/
def generate_job_name (is_hot_lot : Bool) (year : ℕ) (query : Option (List String))
    (rand : ℕ) : String :=
  let next_seq := match query with
    | some todays_names => nextSeq todays_names
    | none => rand
  let pre := if is_hot_lot then "HOT-AUTO" else "AUTO"
  pre ++ "-" ++ toString year ++ "-" ++ pad4 next_seq

/-- `Modelled from the spec:` the sequence rule the specification prescribes
(§4.2): "seq is the smallest integer not already used by today's autogenerated
names, starting at 1001 on first use per day" — the least `n ≥ 1001` with
`n` not among today's used sequences. Used only to compare the code's rule
against the spec's. -/
def specSmallestUnusedSeq (names : List String) : ℕ :=
  Nat.find ((by
    refine ⟨(usedSequences names).foldr max 1000 + 1, ?_, ?_⟩
    · have h : 1000 ≤ (usedSequences names).foldr max 1000 := by
        generalize usedSequences names = l
        induction l with
        | nil => simp
        | cons a t ih => exact le_trans ih (le_max_right _ _)
      omega
    · intro hmem
      have h : ∀ s ∈ usedSequences names, s ≤ (usedSequences names).foldr max 1000 := by
        generalize usedSequences names = l
        induction l with
        | nil => intro s hs; cases hs
        | cons a t ih =>
            intro s hs
            rcases List.mem_cons.mp hs with rfl | hs'
            · exact le_max_left _ _
            · exact le_trans (ih s hs') (le_max_right _ _)
      have := h _ hmem
      omega) : ∃ n, 1001 ≤ n ∧ n ∉ usedSequences names)

/-! ### Concrete fixtures used by witnesses and counterexamples -/

/-- A pending yellow-zone incident (spec scenario E: vibration 0.06 mm/s). -/
def incPending : IncidentRecord :=
  { incident_id := "INC-E", machine_id := "Ey", severity := "high",
    incident_type := "bearing_wear", message := "", detected_value := 6/100,
    threshold_value := 5/100, action_taken := "alert_maintenance",
    action_status := "pending_approval", action_zone := "yellow",
    z_score := none, rate_of_change := none, resolved := false,
    resolved_at := none, operator_notes := none }

/-- A QUEUED job row with an assigned machine. -/
def jobQueuedAssigned : JobRow :=
  { job_id := "J1", status := "QUEUED", assigned_machine_id := some "E1" }

/-- Spec scenario A: lot L1, priority 3, not hot, lithography recipe. -/
def jobL1 : SchedulerJob :=
  { job_id := "L1", job_name := "L1", priority_level := 3, wafer_count := 25,
    is_hot_lot := false, recipe_type := "lithography" }

/-- Spec scenario A: lot L2, priority 5, hot, lithography recipe. -/
def jobL2 : SchedulerJob :=
  { job_id := "L2", job_name := "L2", priority_level := 5, wafer_count := 25,
    is_hot_lot := true, recipe_type := "lithography" }

/-- Spec scenario A: idle lithography machine E1, efficiency 0.92. -/
def machE1 : SchedulerMachine :=
  { machine_id := "E1", name := "E1", machine_type := "lithography",
    status := "IDLE", efficiency_rating := 92/100 }

/-- Spec scenario A: idle etching machine E2, efficiency 0.95. -/
def machE2 : SchedulerMachine :=
  { machine_id := "E2", name := "E2", machine_type := "etching",
    status := "IDLE", efficiency_rating := 95/100 }

/-- Detector state of the thermal scenario after some stable samples: the
`Et:temperature` ring holds `n` copies of 70 °C, with last value 70 at
time `t`. -/
def stableTempState (n : ℕ) (t : ℚ) : SentinelDetector :=
  { window_size := 60, streams := [("Et:temperature", ⟨List.replicate n 70, 70, t⟩)] }

/-- Spec scenario D: fifteen stable 70 °C samples, then 108 °C, at one-second
intervals. -/
def thermalScenario : List (ℚ × ℚ) :=
  [(70, 0), (70, 1), (70, 2), (70, 3), (70, 4), (70, 5), (70, 6), (70, 7),
   (70, 8), (70, 9), (70, 10), (70, 11), (70, 12), (70, 13), (70, 14), (108, 15)]

/-- A hot lot for the ToC dispatcher. -/
def tocJobHot : Job :=
  { job_id := "H1", job_name := "H1", priority_level := 1, wafer_count := 25,
    is_hot_lot := true, recipe_type := "etch", created_at := 0 }

/-- An idle etching machine for the ToC dispatcher. -/
def tocMachine : Machine :=
  { machine_id := "M1", name := "M1", status := "IDLE",
    efficiency_rating := 9/10, mtype := "etching" }

/-- Two pending job rows for the dispatch-persistence scenario. -/
def dbTwoJobs : DispatchDB :=
  { jobs := [⟨"J1", "PENDING", none⟩, ⟨"J2", "PENDING", none⟩], dispatch_log := [] }

/-- Two dispatch decisions for the dispatch-persistence scenario. -/
def decsTwo : List DispatchDecision := [⟨"J1", "M1", 0⟩, ⟨"J2", "M2", 0⟩]

/-- Spec scenario C: lot Lx RUNNING on Ex since t=0 with a 60-minute estimate. -/
def lotLx : LifecycleJob :=
  { job_id := "Lx", status := "RUNNING", assigned_machine_id := some "Ex",
    started_at := some 0, estimated_duration_minutes := 60, wafer_count := 25,
    completed_at := none, updated_at := 0 }

/-- Spec scenario C: equipment Ex running Lx. -/
def machineEx : LifecycleMachine :=
  { machine_id := "Ex", status := "RUNNING", current_job_id := some "Lx",
    total_wafers_processed := 0, updated_at := 0 }

/-! ## Theorems -/

/-- Helper: `approve_incident` on a pending incident succeeds with the
approved/rejected status and otherwise-unchanged record. -/
theorem approve_incident_ok (inc : IncidentRecord) (b : Bool) (notes : Option String)
    (hp : inc.action_status = "pending_approval") :
    approve_incident (some inc) b notes =
      .ok ({ inc with
             action_status := if b then "approved" else "rejected"
             operator_notes := match notes with
               | some n => some n
               | none => inc.operator_notes },
           if b then "approved" else "rejected") := by
  simp only [approve_incident]
  rw [if_neg (by simp [hp])]

/-- Helper: `approve_incident` on a non-pending incident is a 400. -/
theorem approve_incident_not_pending (inc : IncidentRecord)
    (hp : inc.action_status ≠ "pending_approval") (b : Bool) (notes : Option String) :
    approve_incident (some inc) b notes = .error 400 := by
  simp only [approve_incident]
  rw [if_pos hp]

/-! ### C10: the stored incident's zone is taken verbatim from the caller -/

/-- C10: for every `POST /aegis/incidents` request, the stored incident's zone
is the caller-supplied `action_zone` verbatim, its `action_status` is computed
solely from that supplied zone via the zone → status map, and both are
independent of the supplied severity (which is stored but never used to
re-derive the zone). -/
theorem report_incident_zone_verbatim :
    ∀ iid inc,
      (report_incident iid inc).action_zone = inc.action_zone
      ∧ (report_incident iid inc).action_status
          = SafetyCircuit.determine_action_status inc.action_zone
      ∧ (report_incident iid inc).severity = inc.severity
      ∧ ∀ sev,
          (report_incident iid { inc with severity := sev }).action_zone
            = (report_incident iid inc).action_zone
          ∧ (report_incident iid { inc with severity := sev }).action_status
            = (report_incident iid inc).action_status := by
  intro iid inc
  exact ⟨rfl, rfl, rfl, fun _ => ⟨rfl, rfl⟩⟩

/-- Witness for C10: a concrete critical-severity incident posted with a
green zone is stored with zone green and `auto_executed`, unchanged when the
severity is swapped to low. -/
theorem report_incident_zone_verbatim_witness :
    (report_incident "INC-W"
        { machine_id := "EQ-1", severity := "critical", incident_type := "manual",
          message := "", detected_value := 0, threshold_value := 0,
          recommended_action := "", action_zone := "green" }).action_zone = "green"
    ∧ (report_incident "INC-W"
        { machine_id := "EQ-1", severity := "critical", incident_type := "manual",
          message := "", detected_value := 0, threshold_value := 0,
          recommended_action := "", action_zone := "green" }).action_status
        = SafetyCircuit.determine_action_status "green"
    ∧ (report_incident "INC-W"
        { machine_id := "EQ-1", severity := "critical", incident_type := "manual",
          message := "", detected_value := 0, threshold_value := 0,
          recommended_action := "", action_zone := "green" }).severity = "critical"
    ∧ ((report_incident "INC-W"
        { machine_id := "EQ-1", severity := "low", incident_type := "manual",
          message := "", detected_value := 0, threshold_value := 0,
          recommended_action := "", action_zone := "green" }).action_zone
        = (report_incident "INC-W"
        { machine_id := "EQ-1", severity := "critical", incident_type := "manual",
          message := "", detected_value := 0, threshold_value := 0,
          recommended_action := "", action_zone := "green" }).action_zone
      ∧ (report_incident "INC-W"
        { machine_id := "EQ-1", severity := "low", incident_type := "manual",
          message := "", detected_value := 0, threshold_value := 0,
          recommended_action := "", action_zone := "green" }).action_status
        = (report_incident "INC-W"
        { machine_id := "EQ-1", severity := "critical", incident_type := "manual",
          message := "", detected_value := 0, threshold_value := 0,
          recommended_action := "", action_zone := "green" }).action_status) :=
  report_incident_zone_verbatim "INC-W"
    { machine_id := "EQ-1", severity := "critical", incident_type := "manual",
      message := "", detected_value := 0, threshold_value := 0,
      recommended_action := "", action_zone := "green" }
    |>.2.2.2 "low" |> fun hlow =>
      ⟨(report_incident_zone_verbatim "INC-W"
          { machine_id := "EQ-1", severity := "critical", incident_type := "manual",
            message := "", detected_value := 0, threshold_value := 0,
            recommended_action := "", action_zone := "green" }).1,
       (report_incident_zone_verbatim "INC-W"
          { machine_id := "EQ-1", severity := "critical", incident_type := "manual",
            message := "", detected_value := 0, threshold_value := 0,
            recommended_action := "", action_zone := "green" }).2.1,
       (report_incident_zone_verbatim "INC-W"
          { machine_id := "EQ-1", severity := "critical", incident_type := "manual",
            message := "", detected_value := 0, threshold_value := 0,
            recommended_action := "", action_zone := "green" }).2.2.1,
       hlow⟩

/-! ### C9: approve/resolve protocol on incidents -/

/-- C9: `approve` succeeds exactly on incidents whose `action_status` is
`pending_approval`, sets it to `approved` or `rejected`, and never touches
`resolved`/`resolved_at`; a second approval on the result returns 400; and
`resolve` is the operation that sets `resolved = true` with
`resolved_at = now`. -/
theorem approve_resolve_protocol :
    (∀ inc b notes out, approve_incident (some inc) b notes = .ok out →
        inc.action_status = "pending_approval"
        ∧ (out.1.action_status = "approved" ∨ out.1.action_status = "rejected")
        ∧ out.1.resolved = inc.resolved
        ∧ out.1.resolved_at = inc.resolved_at)
    ∧ (∀ inc, inc.action_status ≠ "pending_approval" →
        ∀ b notes, approve_incident (some inc) b notes = .error 400)
    ∧ (∀ inc b notes out b' notes', approve_incident (some inc) b notes = .ok out →
        approve_incident (some out.1) b' notes' = .error 400)
    ∧ (∀ inc now notes out, resolve_incident (some inc) now notes = .ok out →
        out.resolved = true ∧ out.resolved_at = some now) := by
  refine ⟨?_, ?_, ?_, ?_⟩
  · intro inc b notes out h
    by_cases hp : inc.action_status = "pending_approval"
    · rw [approve_incident_ok inc b notes hp] at h
      cases h
      refine ⟨hp, ?_, rfl, rfl⟩
      cases b
      · exact Or.inr rfl
      · exact Or.inl rfl
    · rw [approve_incident_not_pending inc hp b notes] at h
      cases h
  · intro inc hp b notes
    exact approve_incident_not_pending inc hp b notes
  · intro inc b notes out b' notes' h
    by_cases hp : inc.action_status = "pending_approval"
    · rw [approve_incident_ok inc b notes hp] at h
      cases h
      apply approve_incident_not_pending
      cases b <;> simp
    · rw [approve_incident_not_pending inc hp b notes] at h
      cases h
  · intro inc now notes out h
    simp only [resolve_incident] at h
    cases h
    exact ⟨rfl, rfl⟩

/-- Witness for C9: a concrete pending incident is rejected once, leaving
`resolved` untouched; the second attempt on the result returns 400; a resolve
call at time 42 sets `resolved = true` and `resolved_at = 42`. -/
theorem approve_resolve_protocol_witness :
    (incPending.action_status = "pending_approval"
      ∧ (({ incPending with action_status := "rejected" } : IncidentRecord).action_status
            = "approved"
          ∨ ({ incPending with action_status := "rejected" } : IncidentRecord).action_status
            = "rejected")
      ∧ ({ incPending with action_status := "rejected" } : IncidentRecord).resolved
          = incPending.resolved
      ∧ ({ incPending with action_status := "rejected" } : IncidentRecord).resolved_at
          = incPending.resolved_at)
    ∧ approve_incident (some { incPending with action_status := "rejected" }) true none
        = .error 400
    ∧ (({ incPending with resolved := true, resolved_at := some 42 } : IncidentRecord).resolved
          = true
      ∧ ({ incPending with resolved := true, resolved_at := some 42 } : IncidentRecord).resolved_at
          = some 42) := by
  refine ⟨?_, ?_, ?_⟩
  · exact approve_resolve_protocol.1 incPending false none
      ({ incPending with action_status := "rejected" }, "rejected")
      (approve_incident_ok incPending false none rfl)
  · exact approve_resolve_protocol.2.2.1 incPending false none
      ({ incPending with action_status := "rejected" }, "rejected") true none
      (approve_incident_ok incPending false none rfl)
  · exact approve_resolve_protocol.2.2.2 incPending 42 none
      { incPending with resolved := true, resolved_at := some 42 } rfl

/-! ### C8: cancellation and the assignment invariant -/

/-- Counterexample for C8: cancelling a QUEUED job with an assigned machine
yields a CANCELLED job that still carries `assigned_machine_id = some "E1"` —
the claim's "its assigned_equipment_id is cleared" is false, and the invariant
is violated by the result. -/
theorem cancel_clears_assignment_counterexample :
    cancel_job (some { job_id := "J1", status := "QUEUED", assigned_machine_id := some "E1" })
      = .ok { job_id := "J1", status := "CANCELLED", assigned_machine_id := some "E1" }
    ∧ lotAssignmentInvariant
        { job_id := "J1", status := "QUEUED", assigned_machine_id := some "E1" }
    ∧ ¬ lotAssignmentInvariant
        { job_id := "J1", status := "CANCELLED", assigned_machine_id := some "E1" }
    ∧ (some "E1" : Option String) ≠ none := by
  exact ⟨rfl, by decide, by decide, by decide⟩

/-- C8 (amended): `cancel_job` succeeds exactly on PENDING/QUEUED jobs and
sets only the `status` column to CANCELLED; `assigned_machine_id` is left
unchanged, so cancelling a QUEUED lot with an assigned machine violates the
claimed invariant rather than preserving it. -/
theorem cancel_job_amended :
    (∀ job : JobRow, job.status = "PENDING" ∨ job.status = "QUEUED" →
        cancel_job (some job) = .ok { job with status := "CANCELLED" }
        ∧ ({ job with status := "CANCELLED" } : JobRow).assigned_machine_id
            = job.assigned_machine_id)
    ∧ (∀ job : JobRow, ¬(job.status = "PENDING" ∨ job.status = "QUEUED") →
        cancel_job (some job) = .error 400)
    ∧ cancel_job none = .error 404
    ∧ (∀ job : JobRow, job.status = "QUEUED" → job.assigned_machine_id ≠ none →
        ¬ lotAssignmentInvariant (update_job_status job "CANCELLED")) := by
  refine ⟨?_, ?_, rfl, ?_⟩
  · intro job h
    exact ⟨by simp [cancel_job, update_job_status, h], rfl⟩
  · intro job h
    simp [cancel_job, h]
  · intro job _ hassigned
    simp [lotAssignmentInvariant, update_job_status, hassigned]

/-- Witness for C8 (amended), at the counterexample's input. -/
theorem cancel_job_amended_witness :
    (cancel_job (some jobQueuedAssigned)
        = .ok { jobQueuedAssigned with status := "CANCELLED" }
      ∧ ({ jobQueuedAssigned with status := "CANCELLED" } : JobRow).assigned_machine_id
          = jobQueuedAssigned.assigned_machine_id)
    ∧ cancel_job (some { job_id := "J2", status := "RUNNING", assigned_machine_id := some "E1" })
        = .error 400
    ∧ ¬ lotAssignmentInvariant (update_job_status jobQueuedAssigned "CANCELLED") := by
  refine ⟨cancel_job_amended.1 _ (by decide), cancel_job_amended.2.1 _ (by decide),
    cancel_job_amended.2.2.2 _ (by decide) (by decide)⟩

/-! ### C5: lifecycle completion does not touch `total_wafers_processed` -/

/-- Counterexample for C5: completing a due RUNNING lot (60-minute estimate,
completed one second late) leaves the equipment's `total_wafers_processed`
at 0 instead of incrementing it by the lot's `wafer_count = 25`. -/
theorem completion_wafer_count_counterexample :
    shouldComplete 0 60 3601
    ∧ (complete_job lotLx machineEx 3601).2.total_wafers_processed = 0
    ∧ (0 : ℕ) ≠ 0 + 25 := by
  refine ⟨?_, rfl, by decide⟩
  show (100 : ℚ) ≤ min 100 ((3601 - 0) / 60 / 60 * 100)
  rw [le_min_iff]
  norm_num

/-- C5 (amended): a RUNNING lot with `started_at` set completes exactly when
its elapsed minutes reach `estimated_duration_minutes` (the `progress ≥ 100`
gate is equivalent to that, for a positive estimate); completion sets
`lot.status = COMPLETED`, `lot.completed_at = now`, the equipment to IDLE with
`current_job_id = null` — but it leaves `total_wafers_processed` unchanged
(no code in the repository ever increments it). -/
theorem completion_amended :
    ∀ (job : LifecycleJob) (machine : LifecycleMachine) (now started : ℚ),
      job.started_at = some started →
      0 < job.estimated_duration_minutes →
      (shouldComplete started job.estimated_duration_minutes now
        ↔ job.estimated_duration_minutes ≤ (now - started) / 60)
      ∧ (complete_job job machine now).1.status = "COMPLETED"
      ∧ (complete_job job machine now).1.completed_at = some now
      ∧ (complete_job job machine now).2.status = "IDLE"
      ∧ (complete_job job machine now).2.current_job_id = none
      ∧ (complete_job job machine now).2.total_wafers_processed
          = machine.total_wafers_processed
      ∧ (complete_job job machine now).1.wafer_count = job.wafer_count := by
  intro job machine now started _ hest
  refine ⟨?_, rfl, rfl, rfl, rfl, rfl, rfl⟩
  unfold shouldComplete progress_percentage
  rw [ge_iff_le, le_min_iff]
  constructor
  · rintro ⟨-, h⟩
    have h1 : (1:ℚ) ≤ (now - started) / 60 / job.estimated_duration_minutes := by
      linarith
    rw [one_le_div hest] at h1
    exact h1
  · intro h
    refine ⟨le_refl _, ?_⟩
    have h1 : (1:ℚ) ≤ (now - started) / 60 / job.estimated_duration_minutes := by
      rw [one_le_div hest]
      exact h
    linarith

/-- Witness for C5 (amended), at scenario C's input. -/
theorem completion_amended_witness :
    (shouldComplete 0 lotLx.estimated_duration_minutes 3601
        ↔ lotLx.estimated_duration_minutes ≤ ((3601:ℚ) - 0) / 60)
      ∧ (complete_job lotLx machineEx 3601).1.status = "COMPLETED"
      ∧ (complete_job lotLx machineEx 3601).1.completed_at = some 3601
      ∧ (complete_job lotLx machineEx 3601).2.status = "IDLE"
      ∧ (complete_job lotLx machineEx 3601).2.current_job_id = none
      ∧ (complete_job lotLx machineEx 3601).2.total_wafers_processed
          = machineEx.total_wafers_processed
      ∧ (complete_job lotLx machineEx 3601).1.wafer_count = lotLx.wafer_count := by
  exact completion_amended lotLx machineEx 3601 0 rfl (by norm_num [lotLx])

/-! ### C1: zone derivation from severity -/

unseal Rat.add Rat.mul Rat.sub Rat.inv in
/-- Counterexample for C1: a vibration reading of 0.06 mm/s (above the 0.05
critical threshold, below the 0.08 emergency one) yields a `severity="high"`
detection whose zone is `"red"`, not the `"yellow"` the severity→zone map
demands; and a stored incident takes its zone verbatim from the caller, so a
`severity="critical"` incident posted with `action_zone="green"` is stored
with zone `"green"`, not `"red"`. -/
theorem severity_zone_counterexample :
    detectVibration THRESHOLDS (6/100) 0 0
      = some { severity := "high", dtype := "bearing_wear", threshold := 5/100,
               action := "alert_maintenance", zone := "red" }
    ∧ SafetyCircuit.evaluate "high" "bearing_wear" = "yellow"
    ∧ ("red" : String) ≠ "yellow"
    ∧ (report_incident "INC-1"
        { machine_id := "EQ-1", severity := "critical", incident_type := "manual",
          message := "", detected_value := 0, threshold_value := 0,
          recommended_action := "", action_zone := "green" }).severity = "critical"
    ∧ (report_incident "INC-1"
        { machine_id := "EQ-1", severity := "critical", incident_type := "manual",
          message := "", detected_value := 0, threshold_value := 0,
          recommended_action := "", action_zone := "green" }).action_zone = "green"
    ∧ SafetyCircuit.evaluate "critical" "manual" = "red"
    ∧ ("green" : String) ≠ "red" := by
  refine ⟨by decide, by decide, by decide, rfl, rfl, by decide, by decide⟩

/-- C1 (amended): the safety-circuit map itself sends critical→red,
high→yellow, otherwise green, with zone→status green→auto_executed,
yellow→pending_approval, red→alert_only; temperature detections carry exactly
the zone the map assigns to their severity; vibration detections do so for
critical and medium severities, but a high-severity vibration detection
carries zone red instead of yellow; and a stored incident's `action_status`
is always the zone→status map applied to its stored zone (which is the
caller-supplied zone, not one derived from severity). -/
theorem severity_zone_amended :
    (∀ sev k, (sev = "critical" → SafetyCircuit.evaluate sev k = "red")
      ∧ (sev = "high" → SafetyCircuit.evaluate sev k = "yellow")
      ∧ (sev ≠ "critical" → sev ≠ "high" → SafetyCircuit.evaluate sev k = "green"))
    ∧ (SafetyCircuit.determine_action_status "green" = "auto_executed"
      ∧ SafetyCircuit.determine_action_status "yellow" = "pending_approval"
      ∧ SafetyCircuit.determine_action_status "red" = "alert_only")
    ∧ (∀ t v z roc d, detectTemperature t v z roc = some d →
        d.zone = SafetyCircuit.evaluate d.severity d.dtype)
    ∧ (∀ t v z roc d, detectVibration t v z roc = some d →
        (d.severity = "high" → d.zone = "red")
        ∧ (d.severity ≠ "high" → d.zone = SafetyCircuit.evaluate d.severity d.dtype))
    ∧ (∀ iid inc, (report_incident iid inc).action_status
        = SafetyCircuit.determine_action_status (report_incident iid inc).action_zone) := by
  refine ⟨?_, ⟨rfl, rfl, rfl⟩, ?_, ?_, fun iid inc => rfl⟩
  · intro sev k
    refine ⟨fun h => by simp [SafetyCircuit.evaluate, h],
            fun h => by simp [SafetyCircuit.evaluate, h],
            fun h1 h2 => by simp [SafetyCircuit.evaluate, h1, h2]⟩
  · intro t v z roc d h
    unfold detectTemperature at h
    split at h
    · cases h; rfl
    · split at h
      · cases h; rfl
      · split at h
        · cases h; rfl
        · cases h
  · intro t v z roc d h
    unfold detectVibration at h
    split at h
    · cases h
      exact ⟨fun hc => absurd (show ("critical":String) = "high" from hc) (by decide),
             fun _ => rfl⟩
    · split at h
      · cases h
        exact ⟨fun _ => rfl, fun hc => absurd rfl hc⟩
      · split at h
        · cases h
          exact ⟨fun hc => absurd (show ("medium":String) = "high" from hc) (by decide),
                 fun _ => rfl⟩
        · cases h

unseal Rat.add Rat.mul Rat.sub Rat.inv in
/-- Witness for C1 (amended): the severity map at the three severities, the
temperature branch at an emergency reading, the vibration branch at the
counterexample's reading, and the status map on a stored incident. -/
theorem severity_zone_amended_witness :
    SafetyCircuit.evaluate "critical" "x" = "red"
    ∧ SafetyCircuit.evaluate "high" "x" = "yellow"
    ∧ SafetyCircuit.evaluate "medium" "x" = "green"
    ∧ (detectTemperature THRESHOLDS 108 0 0
        = some { severity := "critical", dtype := "thermal_runaway", threshold := 105,
                 action := "emergency_stop", zone := "red" }
      ∧ ({ severity := "critical", dtype := "thermal_runaway", threshold := (105:ℚ),
           action := "emergency_stop", zone := "red" } : Detection).zone
          = SafetyCircuit.evaluate "critical" "thermal_runaway")
    ∧ (detectVibration THRESHOLDS (6/100) 0 0
        = some { severity := "high", dtype := "bearing_wear", threshold := 5/100,
                 action := "alert_maintenance", zone := "red" }
      ∧ ({ severity := "high", dtype := "bearing_wear", threshold := (5:ℚ)/100,
           action := "alert_maintenance", zone := "red" } : Detection).zone = "red") := by
  refine ⟨(severity_zone_amended.1 "critical" "x").1 rfl,
          (severity_zone_amended.1 "high" "x").2.1 rfl,
          (severity_zone_amended.1 "medium" "x").2.2 (by decide) (by decide),
          ⟨by decide, ?_⟩, ⟨by decide, ?_⟩⟩
  · exact severity_zone_amended.2.2.1 THRESHOLDS 108 0 0
      { severity := "critical", dtype := "thermal_runaway", threshold := (105:ℚ),
        action := "emergency_stop", zone := "red" } (by decide)
  · exact (severity_zone_amended.2.2.2.1 THRESHOLDS (6/100) 0 0
      { severity := "high", dtype := "bearing_wear", threshold := (5:ℚ)/100,
        action := "alert_maintenance", zone := "red" } (by decide)).1 rfl

/-! ### C3: dispatch batch persistence is not atomic -/

/-- Helper: with no failure, the persistence loop applies every decision. -/
theorem applyDecisions_all_ok (fa fl : String → Bool) :
    ∀ (ds : List DispatchDecision) (db : DispatchDB),
      (∀ d ∈ ds, fa d.job_id = false ∧ fl d.job_id = false) →
      applyDecisions fa fl ds db = (persistAll ds db, none) := by
  intro ds
  induction ds with
  | nil => intro db _; rfl
  | cons d rest ih =>
      intro db h
      have hd := h d (List.mem_cons_self d rest)
      simp only [applyDecisions, hd.1, hd.2, Bool.false_eq_true, if_false, persistAll]
      exact ih _ fun p hp => h p (List.mem_cons_of_mem d hp)

/-- Helper: when the assignment write of decision `d` fails, the loop stops
there with the prefix fully persisted and nothing rolled back. -/
theorem applyDecisions_fail_assign (fa fl : String → Bool)
    (d : DispatchDecision) (hfa : fa d.job_id = true) :
    ∀ (pre suf : List DispatchDecision) (db : DispatchDB),
      (∀ p ∈ pre, fa p.job_id = false ∧ fl p.job_id = false) →
      applyDecisions fa fl (pre ++ d :: suf) db = (persistAll pre db, some 500) := by
  intro pre
  induction pre with
  | nil =>
      intro suf db _
      simp only [List.nil_append, applyDecisions, hfa, if_true, persistAll]
  | cons p rest ih =>
      intro suf db h
      have hp := h p (List.mem_cons_self p rest)
      simp only [List.cons_append, applyDecisions, hp.1, hp.2, Bool.false_eq_true, if_false,
        persistAll]
      exact ih _ _ fun q hq => h q (List.mem_cons_of_mem p hq)

/-- Helper: when the dispatch-record insert of decision `d` fails, the loop
stops with the prefix persisted and `d`'s assignment update also persisted. -/
theorem applyDecisions_fail_log (fa fl : String → Bool)
    (d : DispatchDecision) (hfa : fa d.job_id = false) (hfl : fl d.job_id = true) :
    ∀ (pre suf : List DispatchDecision) (db : DispatchDB),
      (∀ p ∈ pre, fa p.job_id = false ∧ fl p.job_id = false) →
      applyDecisions fa fl (pre ++ d :: suf) db
        = (assign_job (persistAll pre db) d.job_id d.machine_id, some 500) := by
  intro pre
  induction pre with
  | nil =>
      intro suf db _
      simp only [List.nil_append, applyDecisions, hfa, hfl, Bool.false_eq_true, if_false,
        if_true, persistAll]
  | cons p rest ih =>
      intro suf db h
      have hp := h p (List.mem_cons_self p rest)
      simp only [List.cons_append, applyDecisions, hp.1, hp.2, Bool.false_eq_true, if_false,
        persistAll]
      exact ih _ _ fun q hq => h q (List.mem_cons_of_mem p hq)

/-- Counterexample for C3: with two decisions and a persistence failure on the
second one's assignment write, the endpoint raises (HTTP 500) but the first
decision's assignment and dispatch record remain persisted — the stores are
not left unchanged, so the batch is not atomic. -/
theorem dispatch_atomicity_counterexample :
    applyDecisions (fun j => j == "J2") (fun _ => false) decsTwo dbTwoJobs
      = ({ jobs := [⟨"J1", "QUEUED", some "M1"⟩, ⟨"J2", "PENDING", none⟩],
           dispatch_log := [⟨"J1", "M1"⟩] }, some 500)
    ∧ ({ jobs := [⟨"J1", "QUEUED", some "M1"⟩, ⟨"J2", "PENDING", none⟩],
         dispatch_log := [⟨"J1", "M1"⟩] } : DispatchDB) ≠ dbTwoJobs := by
  exact ⟨rfl, by decide⟩

/-- C3 (amended): the dispatch persistence loop is all-or-stop, not
all-or-nothing: with no failure every decision persists; a failure while
persisting decision `d` aborts the rest of the batch and surfaces HTTP 500,
but every earlier decision's writes — and, when `d`'s assignment write
succeeded and its record insert failed, that assignment too — remain in the
stores; nothing is rolled back. -/
theorem dispatch_prefix_persists :
    ∀ (fa fl : String → Bool) (pre suf : List DispatchDecision)
      (d : DispatchDecision) (db : DispatchDB),
      (∀ p ∈ pre, fa p.job_id = false ∧ fl p.job_id = false) →
      ((∀ p ∈ pre ++ d :: suf, fa p.job_id = false ∧ fl p.job_id = false) →
        applyDecisions fa fl (pre ++ d :: suf) db = (persistAll (pre ++ d :: suf) db, none))
      ∧ (fa d.job_id = true →
          applyDecisions fa fl (pre ++ d :: suf) db = (persistAll pre db, some 500))
      ∧ (fa d.job_id = false → fl d.job_id = true →
          applyDecisions fa fl (pre ++ d :: suf) db
            = (assign_job (persistAll pre db) d.job_id d.machine_id, some 500)) := by
  intro fa fl pre suf d db hpre
  exact ⟨fun h => applyDecisions_all_ok fa fl _ db h,
         fun hfa => applyDecisions_fail_assign fa fl d hfa pre suf db hpre,
         fun hfa hfl => applyDecisions_fail_log fa fl d hfa hfl pre suf db hpre⟩

/-- Witness for C3 (amended), at the counterexample's input: the failing
second decision leaves the first one persisted; and with no failures both
decisions persist. -/
theorem dispatch_prefix_persists_witness :
    applyDecisions (fun j => j == "J2") (fun _ => false)
        ([⟨"J1", "M1", 0⟩] ++ ⟨"J2", "M2", 0⟩ :: []) dbTwoJobs
      = (persistAll [⟨"J1", "M1", 0⟩] dbTwoJobs, some 500)
    ∧ applyDecisions (fun _ => false) (fun _ => false)
        ([⟨"J1", "M1", 0⟩] ++ ⟨"J2", "M2", 0⟩ :: []) dbTwoJobs
      = (persistAll ([⟨"J1", "M1", 0⟩] ++ ⟨"J2", "M2", 0⟩ :: []) dbTwoJobs, none) := by
  constructor
  · exact (dispatch_prefix_persists (fun j => j == "J2") (fun _ => false)
      [⟨"J1", "M1", 0⟩] [] ⟨"J2", "M2", 0⟩ dbTwoJobs (by decide)).2.1 (by decide)
  · exact (dispatch_prefix_persists (fun _ => false) (fun _ => false)
      [⟨"J1", "M1", 0⟩] [] ⟨"J2", "M2", 0⟩ dbTwoJobs (by decide)).1 (by decide)

/-! ### C7: autogenerated lot names -/

/-- Helper: a left fold of `max` dominates its seed and every element. -/
theorem foldl_max_le :
    ∀ (l : List ℕ) (a : ℕ), ∀ x ∈ a :: l, x ≤ l.foldl max a := by
  intro l
  induction l with
  | nil =>
      intro a x hx
      rcases List.mem_singleton.mp hx with rfl
      exact le_refl _
  | cons b rest ih =>
      intro a x hx
      rw [List.foldl_cons]
      rcases List.mem_cons.mp hx with rfl | hx'
      · exact le_trans (le_max_left x b) (ih (max x b) _ (List.mem_cons_self _ _))
      · rcases List.mem_cons.mp hx' with rfl | hx''
        · exact le_trans (le_max_right a x) (ih (max a x) _ (List.mem_cons_self _ _))
        · exact ih (max a b) x (List.mem_cons_of_mem _ hx'')

/-- Helper: a left fold of `max` is its seed or one of the elements. -/
theorem foldl_max_mem : ∀ (l : List ℕ) (a : ℕ), l.foldl max a ∈ a :: l := by
  intro l
  induction l with
  | nil => intro a; exact List.mem_singleton.mpr rfl
  | cons b rest ih =>
      intro a
      rw [List.foldl_cons]
      rcases List.mem_cons.mp (ih (max a b)) with he | hm
      · rw [he]
        rcases max_choice a b with hab | hab <;> rw [hab]
        · exact List.mem_cons_self _ _
        · exact List.mem_cons_of_mem _ (List.mem_cons_self _ _)
      · exact List.mem_cons_of_mem _ (List.mem_cons_of_mem _ hm)

/-- Helper: every element is below `maxDefault + 1`. -/
theorem maxDefault_lt_succ (l : List ℕ) (d : ℕ) : ∀ x ∈ l, x < maxDefault l d + 1 := by
  intro x hx
  cases l with
  | nil => cases hx
  | cons a rest =>
      have h := foldl_max_le rest a x hx
      have he : maxDefault (a :: rest) d = rest.foldl max a := rfl
      rw [he]
      omega

/-- Helper: `maxDefault` of a non-empty list is one of its elements. -/
theorem maxDefault_mem (l : List ℕ) (d : ℕ) (h : l ≠ []) : maxDefault l d ∈ l := by
  cases l with
  | nil => exact absurd rfl h
  | cons a rest => exact foldl_max_mem rest a

/-- Counterexample for C7: with a successful query returning today's names
`AUTO-2026-1001` and `AUTO-2026-1003`, the smallest unused sequence (per the
claim) is 1002, but the code produces `max + 1 = 1004`. -/
theorem job_name_counterexample :
    generate_job_name false 2026 (some ["AUTO-2026-1001", "AUTO-2026-1003"]) 5555
      = "AUTO-2026-1004"
    ∧ specSmallestUnusedSeq ["AUTO-2026-1001", "AUTO-2026-1003"] = 1002
    ∧ parseSeq "AUTO-2026-1004" = some 1004
    ∧ (1004 : ℕ) ≠ 1002 := by
  refine ⟨by decide, ?_, by decide, by decide⟩
  rw [specSmallestUnusedSeq, Nat.find_eq_iff]
  refine ⟨by decide, ?_⟩
  intro m hm
  rintro ⟨h1, h2⟩
  have hm2 : m = 1001 := by omega
  subst hm2
  exact h2 (by decide)

/-- C7 (amended): when the day's-names query succeeds, the autogenerated
sequence is one more than the largest sequence parsed from today's
same-prefix names — 1001 only when no sequence parses — not the smallest
unused one; that sequence then differs from every sequence parsed out of
today's names, so a successful-path name never duplicates a parseable
same-day name of the same prefix. When the query raises, the code falls back
to a random sequence (1001..9999), which can collide. In both paths the name
is `<prefix>-<year>-<seq padded to 4 digits>`. -/
theorem job_name_amended :
    ∀ (hot : Bool) (year : ℕ) (names : List String) (rand : ℕ),
      (usedSequences names = [] → nextSeq names = 1001)
      ∧ (usedSequences names ≠ [] →
          nextSeq names - 1 ∈ usedSequences names
          ∧ ∀ s ∈ usedSequences names, s ≤ nextSeq names - 1)
      ∧ nextSeq names ∉ usedSequences names
      ∧ (∀ n ∈ names, ∀ s, parseSeq n = some s → s ≠ nextSeq names)
      ∧ generate_job_name hot year (some names) rand
          = (if hot then "HOT-AUTO" else "AUTO") ++ "-" ++ toString year ++ "-"
            ++ pad4 (nextSeq names)
      ∧ generate_job_name hot year none rand
          = (if hot then "HOT-AUTO" else "AUTO") ++ "-" ++ toString year ++ "-"
            ++ pad4 rand := by
  intro hot year names rand
  refine ⟨?_, ?_, ?_, ?_, rfl, rfl⟩
  · intro h
    unfold nextSeq
    rw [h]
    rfl
  · intro h
    constructor
    · have hm := maxDefault_mem (usedSequences names) 1000 h
      have he : nextSeq names - 1 = maxDefault (usedSequences names) 1000 := by
        unfold nextSeq
        omega
      rw [he]
      exact hm
    · intro s hs
      have := maxDefault_lt_succ (usedSequences names) 1000 s hs
      unfold nextSeq
      omega
  · intro hmem
    have := maxDefault_lt_succ (usedSequences names) 1000 _ hmem
    unfold nextSeq at this
    omega
  · intro n hn s hs hcontra
    have hmem : s ∈ usedSequences names := by
      unfold usedSequences
      exact List.mem_filterMap.mpr ⟨n, hn, hs⟩
    have := maxDefault_lt_succ (usedSequences names) 1000 _ hmem
    unfold nextSeq at hcontra
    omega

/-- Witness for C7 (amended): the counterexample's successful-path input, the
exception fallback path, and the code's behaviour on a low same-day sequence
(`AUTO-2026-0005` continues to `AUTO-2026-0006`, not 1001). -/
theorem job_name_amended_witness :
    (usedSequences ["AUTO-2026-1001", "AUTO-2026-1003"] ≠ [] →
      nextSeq ["AUTO-2026-1001", "AUTO-2026-1003"] - 1
          ∈ usedSequences ["AUTO-2026-1001", "AUTO-2026-1003"]
        ∧ ∀ s ∈ usedSequences ["AUTO-2026-1001", "AUTO-2026-1003"],
            s ≤ nextSeq ["AUTO-2026-1001", "AUTO-2026-1003"] - 1)
    ∧ nextSeq ["AUTO-2026-1001", "AUTO-2026-1003"]
        ∉ usedSequences ["AUTO-2026-1001", "AUTO-2026-1003"]
    ∧ generate_job_name false 2026 (some ["AUTO-2026-1001", "AUTO-2026-1003"]) 5555
        = (if false then "HOT-AUTO" else "AUTO") ++ "-" ++ toString 2026 ++ "-"
          ++ pad4 (nextSeq ["AUTO-2026-1001", "AUTO-2026-1003"])
    ∧ generate_job_name false 2026 none 7777
        = (if false then "HOT-AUTO" else "AUTO") ++ "-" ++ toString 2026 ++ "-"
          ++ pad4 7777
    ∧ generate_job_name false 2026 (some ["AUTO-2026-0005"]) 7777 = "AUTO-2026-0006" := by
  exact ⟨(job_name_amended false 2026 ["AUTO-2026-1001", "AUTO-2026-1003"] 5555).2.1,
         (job_name_amended false 2026 ["AUTO-2026-1001", "AUTO-2026-1003"] 5555).2.2.1,
         (job_name_amended false 2026 ["AUTO-2026-1001", "AUTO-2026-1003"] 5555).2.2.2.2.1,
         (job_name_amended false 2026 [] 7777).2.2.2.2.2,
         by decide⟩

/-! ### C2: recipe compatibility in the scheduler -/

/-- Helper: any machine the inner loop of `_optimize_python` returns was
either the incoming candidate or passed all the hard-constraint filters. -/
theorem optSelectLoop_sound (cfg : ConstraintConfig) (job : SchedulerJob)
    (assigned : List String) :
    ∀ (ms : List SchedulerMachine) (best : Option SchedulerMachine) (bs : ℚ)
      (m : SchedulerMachine) (s : ℚ),
      optSelectLoop cfg job assigned ms best bs = (some m, s) →
      best = some m
      ∨ (m ∈ ms ∧ (m.status = "IDLE" ∨ m.status = "RUNNING")
          ∧ (cfg.enforce_recipe_match = true →
              typeMatch (compatibleTypes job.recipe_type) m.machine_type = true)) := by
  intro ms
  induction ms with
  | nil =>
      intro best bs m s h
      simp only [optSelectLoop] at h
      exact Or.inl (congrArg Prod.fst h)
  | cons m0 rest ih =>
      intro best bs m s h
      simp only [optSelectLoop] at h
      by_cases h1 : assigned.contains m0.machine_id
      · rw [if_pos h1] at h
        rcases ih _ _ _ _ h with hl | ⟨hm, hr⟩
        · exact Or.inl hl
        · exact Or.inr ⟨List.mem_cons_of_mem m0 hm, hr⟩
      · rw [if_neg h1] at h
        by_cases h2 : m0.status = "IDLE" ∨ m0.status = "RUNNING"
        · rw [if_neg (not_not_intro h2)] at h
          by_cases h3 : cfg.enforce_recipe_match = true
              ∧ ¬(typeMatch (compatibleTypes job.recipe_type) m0.machine_type = true)
          · rw [if_pos h3] at h
            rcases ih _ _ _ _ h with hl | ⟨hm, hr⟩
            · exact Or.inl hl
            · exact Or.inr ⟨List.mem_cons_of_mem m0 hm, hr⟩
          · rw [if_neg h3] at h
            by_cases h4 :
                (m0.efficiency_rating + if m0.status = "IDLE" then 1/10 else 0) > bs
            · rw [if_pos h4] at h
              rcases ih _ _ _ _ h with hl | ⟨hm, hr⟩
              · injection hl with he
                subst he
                refine Or.inr ⟨List.mem_cons_self m0 rest, h2, fun henf => ?_⟩
                by_contra htm
                exact h3 ⟨henf, htm⟩
              · exact Or.inr ⟨List.mem_cons_of_mem m0 hm, hr⟩
            · rw [if_neg h4] at h
              rcases ih _ _ _ _ h with hl | ⟨hm, hr⟩
              · exact Or.inl hl
              · exact Or.inr ⟨List.mem_cons_of_mem m0 hm, hr⟩
        · rw [if_pos h2] at h
          rcases ih _ _ _ _ h with hl | ⟨hm, hr⟩
          · exact Or.inl hl
          · exact Or.inr ⟨List.mem_cons_of_mem m0 hm, hr⟩

/-- Helper: every assignment the job loop of `_optimize_python` adds is
legal with respect to a superset of the remaining jobs. -/
theorem optimizeJobsLoop_sound (cfg : ConstraintConfig)
    (machines : List SchedulerMachine) (jsSup : List SchedulerJob) :
    ∀ (js : List SchedulerJob) (asgns : List Assignment) (unas assigned : List String),
      js ⊆ jsSup →
      (∀ a ∈ asgns, assignmentSound cfg jsSup machines a) →
      ∀ a ∈ (optimizeJobsLoop cfg machines js asgns unas assigned).1,
        assignmentSound cfg jsSup machines a := by
  intro js
  induction js with
  | nil =>
      intro asgns unas assigned _ hstart a ha
      simp only [optimizeJobsLoop] at ha
      exact hstart a ha
  | cons job rest ih =>
      intro asgns unas assigned hsub hstart a ha
      simp only [optimizeJobsLoop] at ha
      rcases hsel : optSelectLoop cfg job assigned machines none (-1) with ⟨bestOpt, bs⟩
      rw [hsel] at ha
      cases bestOpt with
      | none =>
          exact ih _ _ _ (fun x hx => hsub (List.mem_cons_of_mem job hx)) hstart a ha
      | some best =>
          refine ih _ _ _ (fun x hx => hsub (List.mem_cons_of_mem job hx)) ?_ a ha
          intro a' ha'
          rcases List.mem_append.mp ha' with hold | hnew
          · exact hstart a' hold
          · rcases List.mem_singleton.mp hnew with rfl
            rcases optSelectLoop_sound cfg job assigned machines none (-1) best bs hsel with
              hl | ⟨hm, hstat, hrec⟩
            · cases hl
            · exact ⟨job, hsub (List.mem_cons_self job rest), best, hm, rfl, rfl, hstat, hrec⟩

unseal Rat.add Rat.mul Rat.sub Rat.inv List.merge List.mergeSort in
/-- C2: whenever recipe matching is enforced, every assignment produced by
`_optimize_python` pairs a lot with an input machine that is IDLE/RUNNING and
whose (lowercased) type contains one of the lot's compatible kinds; and in
spec scenario A the single batch is L2→E1 with L1 unassigned — the etching
machine E2 gets no lithography lot. -/
theorem scheduler_recipe_compatibility :
    (∀ (cfg : ConstraintConfig) (jobs : List SchedulerJob)
       (machines : List SchedulerMachine) (maxA : ℕ),
       ∀ a ∈ (optimizePython cfg jobs machines maxA).assignments,
         assignmentSound cfg jobs machines a)
    ∧ optimizePython {} [jobL1, jobL2] [machE1, machE2] 10
        = { assignments := [{ job_id := "L2", job_name := "L2", machine_id := "E1",
                              machine_name := "E1", score := 102/100,
                              estimated_start_hours := 0 }],
            unassigned_jobs := ["L1"] }
    ∧ ((optimizePython {} [jobL1, jobL2] [machE1, machE2] 10).assignments.all
        fun a => a.machine_id ≠ "E2") = true := by
  refine ⟨?_, ?_, ?_⟩
  · intro cfg jobs machines maxA a ha
    have hsub : (jobs.mergeSort schedKeyLE).take maxA ⊆ jobs := by
      intro x hx
      have := List.take_subset maxA (jobs.mergeSort schedKeyLE) hx
      rwa [List.mem_mergeSort] at this
    exact optimizeJobsLoop_sound cfg machines jobs _ [] [] [] hsub (by simp) a ha
  · decide
  · decide

unseal Rat.add Rat.mul Rat.sub Rat.inv List.merge List.mergeSort in
/-- Witness for C2: the single scenario-A assignment (L2 on E1) is legal —
it pairs input lot L2 with input machine E1, which is IDLE and
lithography-compatible. -/
theorem scheduler_recipe_compatibility_witness :
    assignmentSound {} [jobL1, jobL2] [machE1, machE2]
      { job_id := "L2", job_name := "L2", machine_id := "E1", machine_name := "E1",
        score := 102/100, estimated_start_hours := 0 } := by
  exact scheduler_recipe_compatibility.1 {} [jobL1, jobL2] [machE1, machE2] 10
    { job_id := "L2", job_name := "L2", machine_id := "E1", machine_name := "E1",
      score := 102/100, estimated_start_hours := 0 } (by decide)

/-! ### C4: lot prioritization order and hot-lot dispatch -/

/-- Helper: unfolding of the tuple comparison `keyLE`. -/
theorem keyLE_iff (x y : Bool × ℕ × ℚ) :
    keyLE x y = true ↔
      x.1 < y.1 ∨ (x.1 = y.1 ∧ (x.2.1 < y.2.1 ∨ (x.2.1 = y.2.1 ∧ x.2.2 ≤ y.2.2))) := by
  simp [keyLE]

/-- Helper: `keyLE` is transitive. -/
theorem keyLE_trans (x y z : Bool × ℕ × ℚ)
    (hab : keyLE x y = true) (hbc : keyLE y z = true) : keyLE x z = true := by
  rw [keyLE_iff] at hab hbc ⊢
  rcases hab with h1 | ⟨e1, hab2⟩
  · rcases hbc with g1 | ⟨f1, -⟩
    · exact Or.inl (lt_trans h1 g1)
    · exact Or.inl (by rw [← f1]; exact h1)
  · rcases hbc with g1 | ⟨f1, hbc2⟩
    · exact Or.inl (by rw [e1]; exact g1)
    · refine Or.inr ⟨e1.trans f1, ?_⟩
      rcases hab2 with h2 | ⟨e2, h3⟩
      · rcases hbc2 with g2 | ⟨f2, -⟩
        · exact Or.inl (lt_trans h2 g2)
        · exact Or.inl (by rw [← f2]; exact h2)
      · rcases hbc2 with g2 | ⟨f2, g3⟩
        · exact Or.inl (by rw [e2]; exact g2)
        · exact Or.inr ⟨e2.trans f2, le_trans h3 g3⟩

/-- Helper: `keyLE` is total. -/
theorem keyLE_total (x y : Bool × ℕ × ℚ) : keyLE x y || keyLE y x := by
  rw [Bool.or_eq_true, keyLE_iff, keyLE_iff]
  rcases lt_trichotomy x.1 y.1 with h | h | h
  · exact Or.inl (Or.inl h)
  · rcases lt_trichotomy x.2.1 y.2.1 with h2 | h2 | h2
    · exact Or.inl (Or.inr ⟨h, Or.inl h2⟩)
    · rcases le_total x.2.2 y.2.2 with h3 | h3
      · exact Or.inl (Or.inr ⟨h, Or.inr ⟨h2, h3⟩⟩)
      · exact Or.inr (Or.inr ⟨h.symm, Or.inr ⟨h2.symm, h3⟩⟩)
    · exact Or.inr (Or.inr ⟨h.symm, Or.inl h2⟩)
  · exact Or.inr (Or.inl h)

/-- Helper: anything `jobLE`-below a hot lot is itself hot. -/
theorem jobLE_hot (a b : Job) (hb : b.is_hot_lot = true) (h : jobLE a b = true) :
    a.is_hot_lot = true := by
  rw [jobLE, keyLE_iff] at h
  cases ha : a.is_hot_lot
  · exfalso
    simp only [jobKey, ha, hb, Bool.not_false, Bool.not_true] at h
    rcases h with h1 | ⟨e1, -⟩
    · exact absurd h1 (by simp [Bool.lt_iff])
    · cases e1
  · rfl

/-- Helper: the status multiplier is never negative. -/
theorem statusMultiplier_nonneg (s : String) : 0 ≤ statusMultiplier s := by
  unfold statusMultiplier
  split_ifs <;> norm_num

/-- Helper: machine scores are nonnegative for nonnegative efficiency. -/
theorem calculate_machine_score_nonneg (m : Machine) (job : Job) (qd : ℕ)
    (heff : 0 ≤ m.efficiency_rating) : 0 ≤ calculate_machine_score m job qd := by
  unfold calculate_machine_score
  apply mul_nonneg (mul_nonneg heff (statusMultiplier_nonneg _))
  positivity

/-- Helper: the machine-selection loop returns a machine whenever some
available (non-DOWN, non-MAINTENANCE) machine exists in its list — machine
scores being nonnegative always beat the initial `-1.0`. -/
theorem selectLoop_isSome (job : Job) (qd : String → ℕ) :
    ∀ (ms : List Machine) (best : Option Machine) (bs : ℚ),
      (∀ m ∈ ms, 0 ≤ m.efficiency_rating) →
      (best = none → bs = -1) →
      ((∃ m ∈ ms, machineAvailable m) ∨ best ≠ none) →
      selectLoop job qd ms best bs ≠ none := by
  intro ms
  induction ms with
  | nil =>
      intro best bs _ _ hex
      rcases hex with ⟨m, hm, _⟩ | hb
      · cases hm
      · simpa [selectLoop] using hb
  | cons m0 rest ih =>
      intro best bs heff hinit hex
      simp only [selectLoop]
      by_cases hskip : m0.status = "DOWN" ∨ m0.status = "MAINTENANCE"
      · rw [if_pos hskip]
        apply ih _ _ (fun m hm => heff m (List.mem_cons_of_mem _ hm)) hinit
        rcases hex with ⟨m, hm, hav⟩ | hb
        · rcases List.mem_cons.mp hm with rfl | hm'
          · exact absurd hskip (by rcases hav with ⟨h1, h2⟩; rintro (h | h)
                                   · exact h1 h
                                   · exact h2 h)
          · exact Or.inl ⟨m, hm', hav⟩
        · exact Or.inr hb
      · rw [if_neg hskip]
        by_cases hgt : calculate_machine_score m0 job (qd m0.machine_id) > bs
        · rw [if_pos hgt]
          exact ih _ _ (fun m hm => heff m (List.mem_cons_of_mem _ hm))
            (fun hco => absurd hco (by simp)) (Or.inr (by simp))
        · rw [if_neg hgt]
          apply ih _ _ (fun m hm => heff m (List.mem_cons_of_mem _ hm)) hinit
          refine Or.inr fun hbn => ?_
          have hbs := hinit hbn
          have hscore := calculate_machine_score_nonneg m0 job (qd m0.machine_id)
            (heff m0 (List.mem_cons_self _ _))
          rw [hbs] at hgt
          exact hgt (lt_of_lt_of_le (by norm_num) hscore)

/-- Helper: the dispatch loop only appends decisions. -/
theorem dispatchLoop_decisions_mono (maxD : ℕ) (machines : List Machine)
    (qd : String → ℕ) (now : ℚ) :
    ∀ (js : List Job) (s : DispatchState),
      ∃ t, (dispatchLoop maxD machines qd now js s).decisions = s.decisions ++ t := by
  intro js
  induction js with
  | nil => intro s; exact ⟨[], (List.append_nil _).symm⟩
  | cons j rest ih =>
      intro s
      simp only [dispatchLoop]
      by_cases hfull : maxD ≤ s.decisions.length
      · rw [if_pos hfull]
        exact ⟨[], (List.append_nil _).symm⟩
      · rw [if_neg hfull]
        cases hsel : select_best_machine j
            (machines.filter fun m => !s.assigned_machines.contains m.machine_id) qd with
        | none => exact ih s
        | some best =>
            obtain ⟨t, ht⟩ := ih
              ⟨s.decisions ++ [⟨j.job_id, best.machine_id, now⟩],
               best.machine_id :: s.assigned_machines⟩
            exact ⟨⟨j.job_id, best.machine_id, now⟩ :: t, by rw [ht]; simp⟩

/-- Helper: the set of batch-consumed machines only grows. -/
theorem dispatchLoop_assigned_mono (maxD : ℕ) (machines : List Machine)
    (qd : String → ℕ) (now : ℚ) :
    ∀ (js : List Job) (s : DispatchState) (x : String),
      x ∈ s.assigned_machines →
      x ∈ (dispatchLoop maxD machines qd now js s).assigned_machines := by
  intro js
  induction js with
  | nil => intro s x hx; exact hx
  | cons j rest ih =>
      intro s x hx
      simp only [dispatchLoop]
      by_cases hfull : maxD ≤ s.decisions.length
      · rw [if_pos hfull]; exact hx
      · rw [if_neg hfull]
        cases hsel : select_best_machine j
            (machines.filter fun m => !s.assigned_machines.contains m.machine_id) qd with
        | none => exact ih s x hx
        | some best =>
            exact ih _ x (List.mem_cons_of_mem _ hx)

/-- Helper (main induction): over a `jobLE`-sorted job list, if a hot job
ends the batch unassigned while an available machine remains unconsumed,
then every decision the loop added is for a hot job. -/
theorem dispatchLoop_hot_invariant (maxD : ℕ) (machines : List Machine)
    (qd : String → ℕ) (now : ℚ)
    (heff : ∀ m ∈ machines, 0 ≤ m.efficiency_rating) :
    ∀ (js : List Job) (s : DispatchState),
      List.Pairwise (fun a b => jobLE a b = true) js →
      ∀ h : Job, h ∈ js → h.is_hot_lot = true →
      (∀ dec ∈ (dispatchLoop maxD machines qd now js s).decisions,
          dec.job_id ≠ h.job_id) →
      (∃ m ∈ machines, machineAvailable m ∧
          m.machine_id ∉ (dispatchLoop maxD machines qd now js s).assigned_machines) →
      ∀ dec ∈ (dispatchLoop maxD machines qd now js s).decisions,
        dec ∈ s.decisions ∨ ∃ j ∈ js, j.job_id = dec.job_id ∧ j.is_hot_lot = true := by
  intro js
  induction js with
  | nil =>
      intro s _ h hmem
      cases hmem
  | cons j rest ih =>
      intro s hpw h hmem hhot hnodec helig dec hdec
      by_cases hfull : maxD ≤ s.decisions.length
      · have hfin : dispatchLoop maxD machines qd now (j :: rest) s = s := by
          simp only [dispatchLoop]
          rw [if_pos hfull]
        rw [hfin] at hdec
        exact Or.inl hdec
      · cases hsel : select_best_machine j
            (machines.filter fun m => !s.assigned_machines.contains m.machine_id) qd with
        | none =>
            have hfin : dispatchLoop maxD machines qd now (j :: rest) s
                = dispatchLoop maxD machines qd now rest s := by
              simp only [dispatchLoop]
              rw [if_neg hfull, hsel]
            rw [hfin] at hdec hnodec helig
            rcases List.mem_cons.mp hmem with rfl | hmem'
            · exfalso
              obtain ⟨m, hm, hav, hnc⟩ := helig
              have hns : m.machine_id ∉ s.assigned_machines := fun hx =>
                hnc (dispatchLoop_assigned_mono maxD machines qd now rest s _ hx)
              have hmf : m ∈ machines.filter
                  fun m' => !s.assigned_machines.contains m'.machine_id := by
                rw [List.mem_filter]
                exact ⟨hm, by simpa using hns⟩
              exact selectLoop_isSome h qd _ none (-1)
                (fun m' hm' => heff m' (List.mem_filter.mp hm').1)
                (fun _ => rfl) (Or.inl ⟨m, hmf, hav⟩) hsel
            · rcases ih s hpw.of_cons h hmem' hhot hnodec helig dec hdec with
                hl | ⟨j', hj', hid, hjhot⟩
              · exact Or.inl hl
              · exact Or.inr ⟨j', List.mem_cons_of_mem _ hj', hid, hjhot⟩
        | some best =>
            have hfin : dispatchLoop maxD machines qd now (j :: rest) s
                = dispatchLoop maxD machines qd now rest
                    ⟨s.decisions ++ [⟨j.job_id, best.machine_id, now⟩],
                     best.machine_id :: s.assigned_machines⟩ := by
              simp only [dispatchLoop]
              rw [if_neg hfull, hsel]
            rw [hfin] at hdec hnodec helig
            rcases List.mem_cons.mp hmem with rfl | hmem'
            · exfalso
              obtain ⟨t, ht⟩ := dispatchLoop_decisions_mono maxD machines qd now rest
                ⟨s.decisions ++ [⟨h.job_id, best.machine_id, now⟩],
                 best.machine_id :: s.assigned_machines⟩
              refine hnodec (⟨h.job_id, best.machine_id, now⟩ : DispatchDecision) ?_ rfl
              rw [ht]
              exact List.mem_append_left _ (List.mem_append_right _ (List.mem_singleton.mpr rfl))
            · rcases ih _ hpw.of_cons h hmem' hhot hnodec helig dec hdec with hl | hr
              · rcases List.mem_append.mp hl with hold | hnew
                · exact Or.inl hold
                · rcases List.mem_singleton.mp hnew with rfl
                  have hjhot : j.is_hot_lot = true :=
                    jobLE_hot j h hhot ((List.pairwise_cons.mp hpw).1 h hmem')
                  exact Or.inr ⟨j, List.mem_cons_self _ _, rfl, hjhot⟩
              · obtain ⟨j', hj', hid, hjh⟩ := hr
                exact Or.inr ⟨j', List.mem_cons_of_mem _ hj', hid, hjh⟩

/-- C4: `prioritize_jobs` permutes the lots into an order sorted by exactly
the lexicographic key (hot lots first, then priority ascending, then
`created_at` ascending — the meaning of `jobLE` is spelled out as the third
conjunct); and in any `dispatch_batch` output over machines with nonnegative
efficiencies, if an eligible hot lot remains pending (some available machine
is still unconsumed) then every dispatched decision is for a hot lot — no
non-hot lot is scheduled while an eligible hot lot waits. -/
theorem scheduler_priority_order :
    (∀ jobs : List Job,
        List.Pairwise (fun a b => jobLE a b = true) (prioritize_jobs jobs)
        ∧ List.Perm (prioritize_jobs jobs) jobs)
    ∧ (∀ a b : Job, jobLE a b = true ↔
        ((a.is_hot_lot = true ∧ b.is_hot_lot = false)
         ∨ (a.is_hot_lot = b.is_hot_lot ∧ a.priority_level < b.priority_level)
         ∨ (a.is_hot_lot = b.is_hot_lot ∧ a.priority_level = b.priority_level
             ∧ a.created_at ≤ b.created_at)))
    ∧ (∀ (jobs : List Job) (machines : List Machine) (qd : String → ℕ)
         (maxD : ℕ) (now : ℚ),
        (∀ m ∈ machines, 0 ≤ m.efficiency_rating) →
        ∀ h : Job, h ∈ jobs → h.is_hot_lot = true →
        (∀ dec ∈ (dispatch_batch jobs machines qd maxD now).decisions,
            dec.job_id ≠ h.job_id) →
        (∃ m ∈ machines, machineAvailable m ∧
            m.machine_id ∉ (dispatch_batch jobs machines qd maxD now).assigned_machines) →
        ∀ dec ∈ (dispatch_batch jobs machines qd maxD now).decisions,
          ∃ j ∈ jobs, j.job_id = dec.job_id ∧ j.is_hot_lot = true) := by
  refine ⟨?_, ?_, ?_⟩
  · intro jobs
    constructor
    · exact @List.sorted_mergeSort Job jobLE
        (fun a b c hab hbc => keyLE_trans _ _ _ hab hbc)
        (fun a b => keyLE_total _ _) jobs
    · exact List.mergeSort_perm jobs jobLE
  · intro a b
    rw [jobLE, keyLE_iff]
    simp only [jobKey]
    cases ha : a.is_hot_lot <;> cases hb : b.is_hot_lot <;>
      simp [Bool.lt_iff]
  · intro jobs machines qd maxD now heff h hmem hhot hnodec helig dec hdec
    have hpw : List.Pairwise (fun a b => jobLE a b = true) (prioritize_jobs jobs) :=
      @List.sorted_mergeSort Job jobLE
        (fun a b c hab hbc => keyLE_trans _ _ _ hab hbc)
        (fun a b => keyLE_total _ _) jobs
    have hmem' : h ∈ prioritize_jobs jobs := by
      rw [prioritize_jobs, List.mem_mergeSort]
      exact hmem
    rcases dispatchLoop_hot_invariant maxD machines qd now heff (prioritize_jobs jobs)
        ⟨[], []⟩ hpw h hmem' hhot hnodec helig dec hdec with hl | ⟨j, hj, hid, hjh⟩
    · cases hl
    · refine ⟨j, ?_, hid, hjh⟩
      rw [prioritize_jobs, List.mem_mergeSort] at hj
      exact hj

unseal Rat.add Rat.mul Rat.sub Rat.inv List.merge List.mergeSort in
/-- Witness for C4: the singleton hot lot sorts to itself, and with
`max_dispatches = 0` it stays pending while machine M1 remains available —
so (vacuously over the empty decision list) every decision is for a hot lot. -/
theorem scheduler_priority_order_witness :
    (List.Pairwise (fun a b => jobLE a b = true) (prioritize_jobs [tocJobHot])
      ∧ List.Perm (prioritize_jobs [tocJobHot]) [tocJobHot])
    ∧ ∀ dec ∈ (dispatch_batch [tocJobHot] [tocMachine] (fun _ => 0) 0 0).decisions,
        ∃ j ∈ [tocJobHot], j.job_id = dec.job_id ∧ j.is_hot_lot = true := by
  refine ⟨(scheduler_priority_order.1 [tocJobHot]), ?_⟩
  exact scheduler_priority_order.2.2 [tocJobHot] [tocMachine] (fun _ => 0) 0 0
    (by intro m hm
        rcases List.mem_singleton.mp hm with rfl
        norm_num [tocMachine])
    tocJobHot (List.mem_singleton.mpr rfl) rfl
    (by decide) (by decide)

/-! ### C6: the detector ring and the thermal scenario -/

/-- Counterexample for C6: the very first sample of a stream is not appended
to the ring — `analyze` only creates an empty ring and records the
last-value/last-time — so "each incoming sample is appended" fails at the
first sample (the ring holds `[]`, not `[70]`). -/
theorem detector_first_sample_counterexample :
    (analyze (fun q => q) { window_size := 60, streams := [] }
        "M1" "temperature" 70 0).1.streams
      = [("M1:temperature", ⟨[], 70, 0⟩)]
    ∧ (analyze (fun q => q) { window_size := 60, streams := [] }
        "M1" "temperature" 70 0).2 = none
    ∧ ([] : List ℚ) ≠ [70] := by
  exact ⟨rfl, rfl, by simp⟩

/-- Helper: one `analyze` call on a fresh stream key only initializes the
ring and the last-value/last-time. -/
theorem analyze_fresh (sq : ℚ → ℚ) (d : SentinelDetector) (mid met : String) (v t : ℚ)
    (h : d.streams.lookup (mid ++ ":" ++ met) = none) :
    analyze sq d mid met v t
      = ({ d with streams := (mid ++ ":" ++ met, ⟨[], v, t⟩) :: d.streams }, none) := by
  simp [analyze, h]

/-- Helper: one `analyze` call whose appended ring is still below 10 samples
records the sample and returns no detection. -/
theorem analyze_below10 (sq : ℚ → ℚ) (d : SentinelDetector) (mid met : String) (v t : ℚ)
    (st : StreamState) (h : d.streams.lookup (mid ++ ":" ++ met) = some st)
    (hlen : (dequeAppend d.window_size st.history v).length < 10) :
    analyze sq d mid met v t
      = ({ d with streams := (setStream (mid ++ ":" ++ met)
             ⟨dequeAppend d.window_size st.history v, v, t⟩ d.streams) }, none) := by
  simp [analyze, h, hlen]

/-- Helper: appending below capacity. -/
theorem dequeAppend_lt (h : List ℚ) (v : ℚ) (hcap : h.length < 60) :
    dequeAppend 60 h v = h ++ [v] := by
  unfold dequeAppend
  rw [if_neg (by omega)]

/-- Helper: a 70 °C reading with z-score 0 triggers nothing, whatever the
rate of change. -/
theorem detectTemperature_stable (roc : ℚ) :
    detectTemperature THRESHOLDS 70 0 roc = none := by
  unfold detectTemperature THRESHOLDS
  rw [if_neg (by norm_num), if_neg (by norm_num), if_neg (by norm_num)]

/-- Helper: a 108 °C reading exceeds the 105 °C emergency threshold, so the
critical thermal-runaway branch fires whatever the z-score and rate of
change. -/
theorem detectTemperature_emergency (z roc : ℚ) :
    detectTemperature THRESHOLDS 108 z roc
      = some { severity := "critical", dtype := "thermal_runaway", threshold := 105,
               action := "emergency_stop", zone := "red" } := by
  unfold detectTemperature THRESHOLDS
  rw [if_pos (Or.inl (by norm_num))]

/-- Helper: a stable scenario step below the 10-sample threshold. -/
theorem analyze_small_step (sq : ℚ → ℚ) (n : ℕ) (hn : n + 1 < 10) (tl t : ℚ) :
    analyze sq (stableTempState n tl) "Et" "temperature" 70 t
      = (stableTempState (n + 1) t, none) := by
  have happ : dequeAppend 60 (List.replicate n (70:ℚ)) 70
      = List.replicate (n + 1) (70:ℚ) := by
    rw [dequeAppend_lt _ _ (by simp; omega), List.replicate_succ']
  have hlen : (dequeAppend (stableTempState n tl).window_size
      (⟨List.replicate n 70, 70, tl⟩ : StreamState).history 70).length < 10 := by
    dsimp only [stableTempState]
    rw [happ]
    simp only [List.length_replicate]
    omega
  rw [analyze_below10 sq (stableTempState n tl) "Et" "temperature" 70 t
      ⟨List.replicate n 70, 70, tl⟩ rfl hlen]
  dsimp only [stableTempState]
  rw [happ]
  rfl

/-- Helper: a stable scenario step at or above the 10-sample threshold —
the ring is all 70s, so the variance is zero and the z-score is zero, and
no detection fires. -/
theorem analyze_stable_step (sq : ℚ → ℚ) (n : ℕ) (h10 : 10 ≤ n + 1) (h59 : n < 59)
    (tl t : ℚ) :
    analyze sq (stableTempState n tl) "Et" "temperature" 70 t
      = (stableTempState (n + 1) t, none) := by
  have hne : ((n + 1 : ℕ) : ℚ) ≠ 0 := Nat.cast_ne_zero.mpr (Nat.succ_ne_zero n)
  have happ : dequeAppend 60 (List.replicate n (70:ℚ)) 70
      = List.replicate (n + 1) (70:ℚ) := by
    rw [dequeAppend_lt _ _ (by simp; omega), List.replicate_succ']
  simp only [analyze]
  rw [show List.lookup ("Et" ++ ":" ++ "temperature") (stableTempState n tl).streams
        = some (⟨List.replicate n 70, 70, tl⟩ : StreamState) from rfl]
  dsimp only [stableTempState]
  rw [happ]
  rw [if_neg (by simp only [List.length_replicate]; omega)]
  have hmean : (List.replicate (n + 1) (70:ℚ)).sum
      / ((List.replicate (n + 1) (70:ℚ)).length : ℚ) = 70 := by
    rw [List.sum_replicate, List.length_replicate, nsmul_eq_mul,
      mul_div_cancel_left₀ _ hne]
  have hvar : ((List.replicate (n + 1) (70:ℚ)).map fun x => (x - 70) ^ 2).sum
      / ((List.replicate (n + 1) (70:ℚ)).length : ℚ) = 0 := by
    rw [List.map_replicate]
    norm_num
  rw [hmean, hvar]
  norm_num [setStream, detectTemperature_stable]
  rfl

/-- Helper: the out-of-range 108 °C sample after fourteen stable samples
yields a critical thermal-runaway detection, for every square root. -/
theorem analyze_final_step (sq : ℚ → ℚ) :
    ((analyze sq (stableTempState 14 14) "Et" "temperature" 108 15).2.map
      fun dd => (dd.severity, dd.dtype, dd.zone))
    = some ("critical", "thermal_runaway", "red") := by
  simp only [analyze]
  rw [show List.lookup ("Et" ++ ":" ++ "temperature") (stableTempState 14 14).streams
        = some (⟨List.replicate 14 70, 70, 14⟩ : StreamState) from rfl]
  dsimp only [stableTempState]
  rw [dequeAppend_lt _ _ (by simp)]
  rw [if_neg (by simp)]
  rw [detectTemperature_emergency]
  rfl

set_option maxHeartbeats 1000000 in
unseal Rat.add Rat.mul Rat.sub Rat.inv in
/-- C6 (amended): the first sample of each `(equipment, metric)` stream only
initializes an empty ring and the last-value/last-time; every later sample is
appended to the bounded ring, and while the ring holds fewer than 10 samples
the detector records the sample and returns no detection; in particular,
feeding 15 stable 70 °C temperature samples followed by 108 °C yields no
detection on the first 15 samples and a critical `thermal_runaway` detection
with zone red on the out-of-range sample — for every square-root function. -/
theorem detector_ring_amended :
    (∀ (sq : ℚ → ℚ) (d : SentinelDetector) (mid met : String) (v t : ℚ),
      d.streams.lookup (mid ++ ":" ++ met) = none →
        (analyze sq d mid met v t).1.streams
            = (mid ++ ":" ++ met, ⟨[], v, t⟩) :: d.streams
        ∧ (analyze sq d mid met v t).2 = none)
    ∧ (∀ (sq : ℚ → ℚ) (d : SentinelDetector) (mid met : String) (v t : ℚ)
         (st : StreamState),
      d.streams.lookup (mid ++ ":" ++ met) = some st →
      (dequeAppend d.window_size st.history v).length < 10 →
        (analyze sq d mid met v t).2 = none
        ∧ (analyze sq d mid met v t).1.streams
            = setStream (mid ++ ":" ++ met)
                ⟨dequeAppend d.window_size st.history v, v, t⟩ d.streams)
    ∧ (∀ sq : ℚ → ℚ,
        ((analyzeRun sq "Et" "temperature" { window_size := 60, streams := [] }
            thermalScenario).2.map
          (Option.map fun dd => (dd.severity, dd.dtype, dd.zone)))
        = List.replicate 15 none ++ [some ("critical", "thermal_runaway", "red")]) := by
  refine ⟨?_, ?_, ?_⟩
  · intro sq d mid met v t h
    constructor <;> simp [analyze, h]
  · intro sq d mid met v t st h hlen
    constructor <;> simp [analyze, h, hlen]
  · intro sq
    have h1 : analyze sq { window_size := 60, streams := [] } "Et" "temperature" 70 0
        = (stableTempState 0 0, none) := by
      rw [analyze_fresh sq { window_size := 60, streams := [] } "Et" "temperature" 70 0
        rfl]
      rfl
    have h2 := analyze_small_step sq 0 (by norm_num) 0 1
    have h3 := analyze_small_step sq 1 (by norm_num) 1 2
    have h4 := analyze_small_step sq 2 (by norm_num) 2 3
    have h5 := analyze_small_step sq 3 (by norm_num) 3 4
    have h6 := analyze_small_step sq 4 (by norm_num) 4 5
    have h7 := analyze_small_step sq 5 (by norm_num) 5 6
    have h8 := analyze_small_step sq 6 (by norm_num) 6 7
    have h9 := analyze_small_step sq 7 (by norm_num) 7 8
    have h10 := analyze_small_step sq 8 (by norm_num) 8 9
    have h11 := analyze_stable_step sq 9 (by norm_num) (by norm_num) 9 10
    have h12 := analyze_stable_step sq 10 (by norm_num) (by norm_num) 10 11
    have h13 := analyze_stable_step sq 11 (by norm_num) (by norm_num) 11 12
    have h14 := analyze_stable_step sq 12 (by norm_num) (by norm_num) 12 13
    have h15 := analyze_stable_step sq 13 (by norm_num) (by norm_num) 13 14
    have h16 := analyze_final_step sq
    simp only [thermalScenario, analyzeRun, h1, h2, h3, h4, h5, h6, h7, h8, h9, h10,
      h11, h12, h13, h14, h15]
    simp only [List.map, h16]
    rfl

/-- Witness for C6 (amended): the three parts at concrete inputs — a fresh
stream, a short ring, and the identity square root for the scenario. -/
theorem detector_ring_amended_witness :
    ((analyze (fun q => q) { window_size := 60, streams := [] }
          "M1" "temperature" 70 0).1.streams
        = [("M1:temperature", ⟨[], 70, 0⟩)]
      ∧ (analyze (fun q => q) { window_size := 60, streams := [] }
          "M1" "temperature" 70 0).2 = none)
    ∧ ((analyze (fun q => q)
          { window_size := 60, streams := [("M1:temperature", ⟨[70], 70, 0⟩)] }
          "M1" "temperature" 71 1).2 = none
      ∧ (analyze (fun q => q)
          { window_size := 60, streams := [("M1:temperature", ⟨[70], 70, 0⟩)] }
          "M1" "temperature" 71 1).1.streams
        = setStream "M1:temperature" ⟨dequeAppend 60 [70] 71, 71, 1⟩
            [("M1:temperature", ⟨[70], 70, 0⟩)])
    ∧ ((analyzeRun (fun q => q) "Et" "temperature" { window_size := 60, streams := [] }
          thermalScenario).2.map
        (Option.map fun dd => (dd.severity, dd.dtype, dd.zone)))
      = List.replicate 15 none ++ [some ("critical", "thermal_runaway", "red")] := by
  refine ⟨?_, ?_, detector_ring_amended.2.2 (fun q => q)⟩
  · exact detector_ring_amended.1 (fun q => q) _ "M1" "temperature" 70 0 rfl
  · exact detector_ring_amended.2.1 (fun q => q) _ "M1" "temperature" 71 1
      ⟨[70], 70, 0⟩ rfl (by decide)

end YieldOps
